import Mathlib

/-!
Shallow embedding of the Nexus repository core: the Tool-Invocation
Protocol handlers of the four MCP capability servers
(`src/services/mcp/{aws,custom,database,k8s}`) and the workflow
orchestration engine of the agent core
(`src/services/agent-core/agent-core.py`).

Python dictionaries / parsed JSON are modelled by the inductive type
`JVal`.  External collaborators (boto3 clients, `requests`, the
kubernetes client, sqlite3, `json.loads`, wall-clock time) are modelled
as oracle records whose `Except`-valued fields stand for "the call
returned normally" versus "the call raised an exception carrying this
message".  A Lean function returning `Except String α` models a Python
function that may let an exception escape; a function returning a plain
value models a Python function that cannot raise (every internal
exception is caught).
-/

namespace Nexus

/-- JSON-like values, as produced by `json.loads` and held in the Python
dictionaries of the services. -/
inductive JVal where
  | null : JVal
  | bool : Bool → JVal
  | num : Int → JVal
  | str : String → JVal
  | arr : List JVal → JVal
  | obj : List (String × JVal) → JVal

mutual

/-- Structural boolean equality on `JVal` (Python `==` on parsed JSON). -/
def jvalBeq : JVal → JVal → Bool
  | JVal.null, JVal.null => true
  | JVal.bool a, JVal.bool b => a == b
  | JVal.num a, JVal.num b => a == b
  | JVal.str a, JVal.str b => a == b
  | JVal.arr a, JVal.arr b => jvalListBeq a b
  | JVal.obj a, JVal.obj b => jvalFieldsBeq a b
  | _, _ => false

def jvalListBeq : List JVal → List JVal → Bool
  | [], [] => true
  | a :: as, b :: bs => jvalBeq a b && jvalListBeq as bs
  | _, _ => false

def jvalFieldsBeq : List (String × JVal) → List (String × JVal) → Bool
  | [], [] => true
  | (k1, v1) :: as, (k2, v2) :: bs => k1 == k2 && jvalBeq v1 v2 && jvalFieldsBeq as bs
  | _, _ => false

end

instance : BEq JVal := ⟨jvalBeq⟩

/-- `leadsList pre l` : `pre` is an initial segment of `l`
(Python `str.startswith` over characters). -/
def leadsList : List Char → List Char → Bool
  | [], _ => true
  | _ :: _, [] => false
  | a :: as, b :: bs => a == b && leadsList as bs

/-- `subList kw l` : `kw` occurs contiguously inside `l`. -/
def subList (kw : List Char) : List Char → Bool
  | [] => kw.isEmpty
  | c :: rest => leadsList kw (c :: rest) || subList kw rest

/-- Python `kw in s` substring containment. -/
def containsSub (s kw : String) : Bool := subList kw.data s.data

/-- Python `str.lower` (ASCII case, which covers every keyword used). -/
def pyLower (s : String) : String := String.mk (s.data.map Char.toLower)

/-- Python `str.upper` (ASCII case). -/
def pyUpper (s : String) : String := String.mk (s.data.map Char.toUpper)

/-- The whitespace characters stripped by Python `str.strip()`:
space, tab, newline, carriage return, vertical tab, form feed. -/
def pySpaceChar (c : Char) : Bool :=
  c == ' ' || c == Char.ofNat 9 || c == Char.ofNat 10 || c == Char.ofNat 13 ||
  c == Char.ofNat 11 || c == Char.ofNat 12

/-- Python `str.strip()`. -/
def pyStrip (s : String) : String :=
  String.mk (((s.data.dropWhile pySpaceChar).reverse.dropWhile pySpaceChar).reverse)

/-- Python truthiness of a parsed-JSON value (`bool(v)`). -/
def pyFalsy : JVal → Bool
  | JVal.null => true
  | JVal.bool b => !b
  | JVal.num n => n == 0
  | JVal.str s => s.isEmpty
  | JVal.arr xs => xs.isEmpty
  | JVal.obj fs => fs.isEmpty

/-- A single-quote character, used by Python `repr` of strings. -/
def sq : String := String.mk [Char.ofNat 39]

mutual

/-- Python `repr` of a parsed-JSON value (string-escape corner cases of
CPython are not reproduced: the services only ever embed such text into
free-form prompts and messages). -/
def pyRepr : JVal → String
  | JVal.null => "None"
  | JVal.bool true => "True"
  | JVal.bool false => "False"
  | JVal.num n => toString n
  | JVal.str s => sq ++ s ++ sq
  | JVal.arr xs => "[" ++ pyReprItems xs ++ "]"
  | JVal.obj fs => "\x7b" ++ pyReprFields fs ++ "\x7d"

def pyReprItems : List JVal → String
  | [] => ""
  | [x] => pyRepr x
  | x :: y :: rest => pyRepr x ++ ", " ++ pyReprItems (y :: rest)

def pyReprFields : List (String × JVal) → String
  | [] => ""
  | [(k, v)] => sq ++ k ++ sq ++ ": " ++ pyRepr v
  | (k, v) :: f :: rest => sq ++ k ++ sq ++ ": " ++ pyRepr v ++ ", " ++ pyReprFields (f :: rest)

end

/-- Python `str` of a parsed-JSON value, as used by f-string interpolation. -/
def pyStr : JVal → String
  | JVal.str s => s
  | v => pyRepr v

mutual

/-- `json.dumps` with default separators. -/
def jsonDump : JVal → String
  | JVal.null => "null"
  | JVal.bool true => "true"
  | JVal.bool false => "false"
  | JVal.num n => toString n
  | JVal.str s => "\"" ++ s ++ "\""
  | JVal.arr xs => "[" ++ jsonDumpItems xs ++ "]"
  | JVal.obj fs => "\x7b" ++ jsonDumpFields fs ++ "\x7d"

def jsonDumpItems : List JVal → String
  | [] => ""
  | [x] => jsonDump x
  | x :: y :: rest => jsonDump x ++ ", " ++ jsonDumpItems (y :: rest)

def jsonDumpFields : List (String × JVal) → String
  | [] => ""
  | [(k, v)] => "\"" ++ k ++ "\": " ++ jsonDump v
  | (k, v) :: f :: rest => "\"" ++ k ++ "\": " ++ jsonDump v ++ ", " ++ jsonDumpFields (f :: rest)

end

/-- `2*d` spaces of indentation. -/
def pad (d : Nat) : String := String.mk (List.replicate (2 * d) ' ')

mutual

/-- `json.dumps` with `indent=2`, at nesting depth `d`. -/
def jsonDumpI : Nat → JVal → String
  | _, JVal.null => "null"
  | _, JVal.bool true => "true"
  | _, JVal.bool false => "false"
  | _, JVal.num n => toString n
  | _, JVal.str s => "\"" ++ s ++ "\""
  | _, JVal.arr [] => "[]"
  | d, JVal.arr (x :: xs) => "[\n" ++ jsonDumpIItems (d + 1) (x :: xs) ++ "\n" ++ pad d ++ "]"
  | _, JVal.obj [] => "\x7b\x7d"
  | d, JVal.obj (f :: fs) => "\x7b\n" ++ jsonDumpIFields (d + 1) (f :: fs) ++ "\n" ++ pad d ++ "\x7d"

def jsonDumpIItems : Nat → List JVal → String
  | _, [] => ""
  | d, [x] => pad d ++ jsonDumpI d x
  | d, x :: y :: rest => pad d ++ jsonDumpI d x ++ ",\n" ++ jsonDumpIItems d (y :: rest)

def jsonDumpIFields : Nat → List (String × JVal) → String
  | _, [] => ""
  | d, [(k, v)] => pad d ++ "\"" ++ k ++ "\": " ++ jsonDumpI d v
  | d, (k, v) :: f :: rest =>
      pad d ++ "\"" ++ k ++ "\": " ++ jsonDumpI d v ++ ",\n" ++ jsonDumpIFields d (f :: rest)

end

/-- `json.dumps(v, indent=2)`. -/
def jsonDumpIndent2 (j : JVal) : String := jsonDumpI 0 j

/-- Python subscript `v[k]` with a string key: `KeyError` on a dict
without the key, `TypeError` on a non-dict. -/
def jGetE (j : JVal) (k : String) : Except String JVal :=
  match j with
  | JVal.obj fs =>
    match fs.lookup k with
    | some v => Except.ok v
    | none => Except.error ("KeyError: " ++ k)
  | _ => Except.error ("TypeError: value is not subscriptable by key " ++ k)

/-- Python subscript `v[i]` with a non-negative integer index. -/
def jIndexE (j : JVal) (i : Nat) : Except String JVal :=
  match j with
  | JVal.arr xs =>
    match xs.get? i with
    | some v => Except.ok v
    | none => Except.error "IndexError: list index out of range"
  | JVal.str s =>
    match s.data.get? i with
    | some c => Except.ok (JVal.str (String.mk [c]))
    | none => Except.error "IndexError: string index out of range"
  | _ => Except.error "TypeError: value is not subscriptable by index"

/-- Python `v.get(k, d)`: total on dicts, `AttributeError` otherwise. -/
def pyGetD (j : JVal) (k : String) (d : JVal) : Except String JVal :=
  match j with
  | JVal.obj fs => Except.ok ((fs.lookup k).getD d)
  | _ => Except.error ("AttributeError: object has no attribute get (key " ++ k ++ ")")

/-- Python `k in v` for a string `k`: key containment on dicts, element
membership on lists, substring on strings, `TypeError` otherwise. -/
def pyInJE (k : String) : JVal → Except String Bool
  | JVal.obj fs => Except.ok (fs.any (fun p => p.1 == k))
  | JVal.arr xs =>
      Except.ok (xs.any (fun v => match v with | JVal.str s => s == k | _ => false))
  | JVal.str s => Except.ok (containsSub s k)
  | _ => Except.error "TypeError: argument of type is not iterable"

/-- `j.hasKey k` : `j` is a dict carrying key `k`. -/
def JVal.hasKey : JVal → String → Bool
  | JVal.obj fs, k => fs.any (fun p => p.1 == k)
  | _, _ => false

/-- `json.loads` requires its argument to be text. -/
def asStrE : JVal → Except String String
  | JVal.str s => Except.ok s
  | _ => Except.error "TypeError: the JSON object must be str"

/-- Calling `.lower()` on a non-string raises `AttributeError`. -/
def taskStrE : JVal → Except String String
  | JVal.str s => Except.ok s
  | _ => Except.error "AttributeError: object has no attribute lower"

/-- Python dict assignment `d[k] = v` on an insertion-ordered dict held
as an association list: replace in place, else append. -/
def objSet (fs : List (String × JVal)) (k : String) (v : JVal) : List (String × JVal) :=
  match fs with
  | [] => [(k, v)]
  | (k0, v0) :: rest => if k0 == k then (k0, v) :: rest else (k0, v0) :: objSet rest k v

/-- Python `d.setdefault(k, v)`: insert at the end only when absent. -/
def objSetDefault (fs : List (String × JVal)) (k : String) (v : JVal) :
    List (String × JVal) :=
  if fs.any (fun p => p.1 == k) then fs else fs ++ [(k, v)]

/-- The `{error: message}` body every server builds on a caught failure. -/
def jerr (m : String) : JVal := JVal.obj [("error", JVal.str m)]

/-- The `{content: items}` success body of a tool call. -/
def content (items : List JVal) : JVal := JVal.obj [("content", JVal.arr items)]

/-- A `{type: "text", text: s}` content item. -/
def text (s : String) : JVal := JVal.obj [("type", JVal.str "text"), ("text", JVal.str s)]

/-- A content item whose `text` field is an arbitrary value (the AWS
Bedrock tool embeds whatever `outputText` held). -/
def textJ (v : JVal) : JVal := JVal.obj [("type", JVal.str "text"), ("text", v)]

/-! ## Agent core (`src/services/agent-core/agent-core.py`) -/

/-- The configuration the `AgentCore` constructor copies out of
`AgentCoreConfig`: model id, token ceiling, MCP endpoint map and data
pipeline map. -/
structure AgentCoreCfg where
  modelId : String
  maxTokenCount : Int
  mcpEndpoints : List (String × String)
  dataPipelines : List (String × String)

/-- The defaults of `AgentCoreConfig` / `BedrockConfig`. -/
def defaultCfg : AgentCoreCfg :=
  { modelId := "amazon.titan-text-lite-v1"
  , maxTokenCount := 200
  , mcpEndpoints :=
      [ ("aws", "http://aws-mcp.nexus-mcp.svc.cluster.local")
      , ("database", "http://database-mcp.nexus-mcp.svc.cluster.local")
      , ("custom", "http://custom-mcp.nexus-mcp.svc.cluster.local")
      , ("k8s", "http://k8s-mcp.nexus-mcp.svc.cluster.local") ]
  , dataPipelines := [] }

/-- External collaborators of the agent core.
`post url payload` models `requests.post(url, json=payload, timeout=30)`
followed by `raise_for_status()` and `.json()`; `Except.error` is any
exception out of that chain.  `invokeModel modelId inputText maxTokenCount`
models `bedrock.invoke_model` followed by reading and `json.loads`-ing the
response body.  `parseJson` models Python `json.loads` on the text the
Glue branch extracts from a step result. -/
structure AgentEnv where
  post : String → JVal → Except String JVal
  invokeModel : String → JVal → Int → Except String JVal
  parseJson : String → Except String JVal

/-- `AgentCore.call_mcp_tool`. -/
def callMcpTool (cfg : AgentCoreCfg) (env : AgentEnv) (server tool : String)
    (args : JVal) : JVal :=
  let url := (cfg.mcpEndpoints.lookup server).getD ""
  if url = "" then JVal.obj [("error", JVal.str ("Unknown MCP server: " ++ server))]
  else
    let payload := JVal.obj
      [ ("method", JVal.str "tools/call")
      , ("params", JVal.obj [("name", JVal.str tool), ("arguments", args)]) ]
    match env.post url payload with
    | Except.ok j => j
    | Except.error e => JVal.obj [("error", JVal.str e)]

/-- The body of the `try` block of `AgentCore.invoke_bedrock`: invoke the
model and extract `result["results"][0]["outputText"]`. -/
def bedrockPipeline (cfg : AgentCoreCfg) (env : AgentEnv) (prompt : JVal) :
    Except String JVal := do
  let body ← env.invokeModel cfg.modelId prompt cfg.maxTokenCount
  let results ← jGetE body "results"
  let first ← jIndexE results 0
  jGetE first "outputText"

/-- `AgentCore.invoke_bedrock`: any exception inside the pipeline is
caught and turned into the synthetic string `"Bedrock error: <message>"`. -/
def invokeBedrockJ (cfg : AgentCoreCfg) (env : AgentEnv) (prompt : JVal) : JVal :=
  match bedrockPipeline cfg env prompt with
  | Except.ok v => v
  | Except.error e => JVal.str ("Bedrock error: " ++ e)

/-- `invoke_bedrock` applied to a string prompt, as every workflow branch
other than `bedrock_test` does. -/
def invokeBedrock (cfg : AgentCoreCfg) (env : AgentEnv) (prompt : String) : JVal :=
  invokeBedrockJ cfg env (JVal.str prompt)

/-- The classifier groups of `execute_workflow`, in source order. -/
inductive WGroup where
  | bedrockTest
  | s3List
  | weatherA
  | databaseQuery
  | clusterOps
  | droneIngest
  | glueJob
deriving DecidableEq, Fintype

/-- The keywords each classifier group tests for (`clusterOps` matches on
either of its two keywords). -/
def groupKeywords : WGroup → List String
  | WGroup.bedrockTest => ["bedrock"]
  | WGroup.s3List => ["s3"]
  | WGroup.weatherA => ["weather"]
  | WGroup.databaseQuery => ["database"]
  | WGroup.clusterOps => ["kubernetes", "k8s"]
  | WGroup.droneIngest => ["drone"]
  | WGroup.glueJob => ["glue"]

/-- Position of a group in the fixed priority order of the `if` chain. -/
def groupIdx : WGroup → Nat
  | WGroup.bedrockTest => 0
  | WGroup.s3List => 1
  | WGroup.weatherA => 2
  | WGroup.databaseQuery => 3
  | WGroup.clusterOps => 4
  | WGroup.droneIngest => 5
  | WGroup.glueJob => 6

/-- `task` contains (case-insensitively) some keyword of group `g`. -/
def taskHasGroupKw (task : String) (g : WGroup) : Bool :=
  (groupKeywords g).any (fun kw => containsSub (pyLower task) kw)

/-- The keyword classifier: the chain of
`if <keyword> in task.lower()` tests of `execute_workflow`, in source
order, reified as the group it selects. -/
def classify (task : String) : Option WGroup :=
  let t := pyLower task
  if containsSub t "bedrock" then some WGroup.bedrockTest
  else if containsSub t "s3" then some WGroup.s3List
  else if containsSub t "weather" then some WGroup.weatherA
  else if containsSub t "database" then some WGroup.databaseQuery
  else if containsSub t "kubernetes" || containsSub t "k8s" then some WGroup.clusterOps
  else if containsSub t "drone" then some WGroup.droneIngest
  else if containsSub t "glue" then some WGroup.glueJob
  else none

/-- The `"bedrock" in task` branch of `execute_workflow`. -/
def runBedrockTest (cfg : AgentCoreCfg) (env : AgentEnv) (wf : JVal) :
    Except String JVal := do
  let prompt ← pyGetD wf "prompt" (JVal.str "Hello from Nexus Agent Core!")
  pure (JVal.obj
    [ ("workflow", JVal.str "bedrock_test")
    , ("result", invokeBedrockJ cfg env prompt) ])

/-- The `"s3" in task` branch of `execute_workflow`. -/
def runS3List (cfg : AgentCoreCfg) (env : AgentEnv) : Except String JVal :=
  Except.ok (JVal.obj
    [ ("workflow", JVal.str "s3_list")
    , ("result", callMcpTool cfg env "aws" "list_s3_buckets" (JVal.obj [])) ])

/-- The `"weather" in task` branch of `execute_workflow`. -/
def runWeather (cfg : AgentCoreCfg) (env : AgentEnv) (wf : JVal) :
    Except String JVal := do
  let city ← pyGetD wf "city" (JVal.str "San Francisco")
  let weather := callMcpTool cfg env "custom" "get_weather" (JVal.obj [("city", city)])
  let analysis := invokeBedrock cfg env ("Analyze this weather: " ++ pyStr weather)
  let storage := callMcpTool cfg env "custom" "store_data"
      (JVal.obj [("key", JVal.str ("weather_" ++ pyStr city)), ("value", analysis)])
  pure (JVal.obj
    [ ("workflow", JVal.str "weather_analysis")
    , ("steps", JVal.arr
        [ JVal.obj [("step", JVal.str "get_weather"), ("result", weather)]
        , JVal.obj [("step", JVal.str "ai_analysis"), ("result", analysis)]
        , JVal.obj [("step", JVal.str "store_result"), ("result", storage)] ]) ])

/-- The `"database" in task` branch of `execute_workflow`. -/
def runDatabase (cfg : AgentCoreCfg) (env : AgentEnv) (wf : JVal) :
    Except String JVal := do
  let query ← pyGetD wf "query" (JVal.str "SELECT * FROM users")
  pure (JVal.obj
    [ ("workflow", JVal.str "database_query")
    , ("result", callMcpTool cfg env "database" "execute_query"
        (JVal.obj [("query", query)])) ])

/-- The `"kubernetes"/"k8s" in task` branch of `execute_workflow`, with
its ordered sub-classification scale / status-or-health / pods /
troubleshoot / fallback. -/
def runClusterOps (cfg : AgentCoreCfg) (env : AgentEnv) (task : String) (wf : JVal) :
    Except String JVal := do
  let t := pyLower task
  if containsSub t "scale" then do
    let deployment ← pyGetD wf "deployment_name" (JVal.str "agent-core")
    let replicas ← pyGetD wf "replicas" (JVal.num 3)
    pure (JVal.obj
      [ ("workflow", JVal.str "k8s_scale")
      , ("result", callMcpTool cfg env "k8s" "scale_deployment"
          (JVal.obj [("deployment_name", deployment), ("replicas", replicas)])) ])
  else if containsSub t "status" || containsSub t "health" then
    let result := callMcpTool cfg env "k8s" "get_cluster_status" (JVal.obj [])
    let analysis := invokeBedrock cfg env
        ("Analyze this Kubernetes cluster status: " ++ pyStr result)
    pure (JVal.obj
      [ ("workflow", JVal.str "k8s_health_check")
      , ("steps", JVal.arr
          [ JVal.obj [("step", JVal.str "get_status"), ("result", result)]
          , JVal.obj [("step", JVal.str "ai_analysis"), ("result", analysis)] ]) ])
  else if containsSub t "pods" then do
    let ns ← pyGetD wf "namespace" (JVal.str "default")
    pure (JVal.obj
      [ ("workflow", JVal.str "k8s_list_pods")
      , ("result", callMcpTool cfg env "k8s" "list_pods"
          (JVal.obj [("namespace", ns)])) ])
  else if containsSub t "troubleshoot" then do
    let podName ← pyGetD wf "pod_name" JVal.null
    if pyFalsy podName then
      pure (JVal.obj [("error", JVal.str "pod_name required for troubleshooting")])
    else
      let result := callMcpTool cfg env "k8s" "troubleshoot_pod"
          (JVal.obj [("pod_name", podName)])
      let analysis := invokeBedrock cfg env
          ("Provide troubleshooting recommendations: " ++ pyStr result)
      pure (JVal.obj
        [ ("workflow", JVal.str "k8s_troubleshoot")
        , ("steps", JVal.arr
            [ JVal.obj [("step", JVal.str "analyze_pod"), ("result", result)]
            , JVal.obj [("step", JVal.str "ai_recommendations"), ("result", analysis)] ]) ])
  else
    pure (JVal.obj
      [ ("workflow", JVal.str "k8s_general")
      , ("result", callMcpTool cfg env "k8s" "get_cluster_status" (JVal.obj [])) ])

/-- The `"drone" in task` branch of `execute_workflow`. -/
def runDrone (cfg : AgentCoreCfg) (env : AgentEnv) (wf : JVal) :
    Except String JVal := do
  let ev0 ← pyGetD wf "event" JVal.null
  let event := if pyFalsy ev0 then JVal.obj [] else ev0
  match event with
  | JVal.obj _ => do
    let pk0 ← pyGetD wf "partition_key" JVal.null
    let pk1 ← if pyFalsy pk0 then pyGetD event "droneId" JVal.null else pure pk0
    let pk := if pyFalsy pk1 then JVal.str "nexus-drone" else pk1
    let transformResult := callMcpTool cfg env "aws" "process_drone_event"
        (JVal.obj [("payload", event), ("partitionKey", pk)])
    let hasErr ← pyInJE "error" transformResult
    if hasErr then do
      let msg ← jGetE transformResult "error"
      pure (JVal.obj [("workflow", JVal.str "drone_ingest"), ("error", msg)])
    else
      let summary := invokeBedrock cfg env
          ("Summarize this drone telemetry for an ops console, highlighting key metrics: "
           ++ pyStr transformResult)
      pure (JVal.obj
        [ ("workflow", JVal.str "drone_ingest")
        , ("steps", JVal.arr
            [ JVal.obj [("step", JVal.str "normalize"), ("result", transformResult)]
            , JVal.obj [("step", JVal.str "bedrock_summary"), ("result", summary)] ])
        , ("outputStream",
            match cfg.dataPipelines.lookup "processedStream" with
            | some v => JVal.str v
            | none => JVal.null) ])
  | _ => pure (JVal.obj [("error", JVal.str "event must be provided as an object")])

/-- The run-identifier extraction of the Glue branch:
`json.loads(start_result["content"][0]["text"])`. -/
def glueRunData (env : AgentEnv) (startResult : JVal) : Except String JVal := do
  let c ← jGetE startResult "content"
  let first ← jIndexE c 0
  let t ← jGetE first "text"
  let s ← asStrE t
  env.parseJson s

/-- The `"glue" in task` branch of `execute_workflow`. -/
def runGlue (cfg : AgentCoreCfg) (env : AgentEnv) (task : String) (wf : JVal) :
    Except String JVal := do
  let t := pyLower task
  if containsSub t "start" then do
    let jobName ← pyGetD wf "job_name" (JVal.str "my-etl-job")
    let startResult := callMcpTool cfg env "aws" "start_glue_job"
        (JVal.obj [("job_name", jobName)])
    match (glueRunData env startResult >>= fun runData =>
           jGetE runData "run_id" >>= fun runId =>
           Except.ok
             (let statusResult := callMcpTool cfg env "aws" "get_glue_job_status"
                  (JVal.obj [("job_name", jobName), ("run_id", runId)])
              let analysis := invokeBedrock cfg env
                  ("Analyze this Glue job execution: " ++ pyStr statusResult)
              JVal.obj
                [ ("workflow", JVal.str "glue_job_execution")
                , ("steps", JVal.arr
                    [ JVal.obj [("step", JVal.str "start_job"), ("result", startResult)]
                    , JVal.obj [("step", JVal.str "check_status"), ("result", statusResult)]
                    , JVal.obj [("step", JVal.str "ai_analysis"), ("result", analysis)] ]) ])) with
    | Except.ok v => pure v
    | Except.error e =>
        pure (JVal.obj [("workflow", JVal.str "glue_job_execution"), ("error", JVal.str e)])
  else
    let jobsResult := callMcpTool cfg env "aws" "list_glue_jobs" (JVal.obj [])
    let analysis := invokeBedrock cfg env
        ("Analyze these Glue jobs and suggest optimizations: " ++ pyStr jobsResult)
    pure (JVal.obj
      [ ("workflow", JVal.str "glue_jobs_analysis")
      , ("steps", JVal.arr
          [ JVal.obj [("step", JVal.str "list_jobs"), ("result", jobsResult)]
          , JVal.obj [("step", JVal.str "ai_analysis"), ("result", analysis)] ]) ])

/-- Dispatch table from classifier group to branch body. -/
def runGroup (g : WGroup) (cfg : AgentCoreCfg) (env : AgentEnv) (task : String)
    (wf : JVal) : Except String JVal :=
  match g with
  | WGroup.bedrockTest => runBedrockTest cfg env wf
  | WGroup.s3List => runS3List cfg env
  | WGroup.weatherA => runWeather cfg env wf
  | WGroup.databaseQuery => runDatabase cfg env wf
  | WGroup.clusterOps => runClusterOps cfg env task wf
  | WGroup.droneIngest => runDrone cfg env wf
  | WGroup.glueJob => runGlue cfg env task wf

/-- `AgentCore.execute_workflow`.  An `Except.error` is an exception
escaping to the HTTP layer (only possible from a malformed `workflow`
object, never from a failing step). -/
def executeWorkflow (cfg : AgentCoreCfg) (env : AgentEnv) (wf : JVal) :
    Except String JVal := do
  let taskV ← pyGetD wf "task" (JVal.str "")
  let task ← taskStrE taskV
  let t := pyLower task
  if containsSub t "bedrock" then runBedrockTest cfg env wf
  else if containsSub t "s3" then runS3List cfg env
  else if containsSub t "weather" then runWeather cfg env wf
  else if containsSub t "database" then runDatabase cfg env wf
  else if containsSub t "kubernetes" || containsSub t "k8s" then runClusterOps cfg env task wf
  else if containsSub t "drone" then runDrone cfg env wf
  else if containsSub t "glue" then runGlue cfg env task wf
  else pure (JVal.obj [("error", JVal.str "Unknown workflow")])

/-! ## Custom MCP server (`src/services/mcp/custom/custom-server.py`) -/

/-- The in-memory `data_store` of `CustomMCP`, an insertion-ordered dict
whose keys are whatever values callers supplied. -/
abbrev CStore := List (JVal × JVal)

/-- External collaborators of the custom server: the wall clock
(`datetime.now().isoformat()`) and the weather HTTP fetch.
`weatherGet url` models `requests.get(url, timeout=5)`: `Except.error`
is a raised exception, `Except.ok (status, body)` is a response with
that status code whose body parses to `body`. -/
structure CustomEnv where
  now : String
  weatherGet : String → Except String (Int × JVal)

/-- Python hashability of a parsed-JSON value: `None`, booleans, numbers
and strings are hashable; lists and dicts are not, and using one as a
dict key (or in a `key in dict` test) raises `TypeError`. -/
def pyHashable : JVal → Bool
  | JVal.arr _ => false
  | JVal.obj _ => false
  | _ => true

/-- Dict assignment `d[key] = v` on an insertion-ordered dict with an
already-hash-checked key: replace in place, else append. -/
def cstoreSet (store : CStore) (k v : JVal) : CStore :=
  match store with
  | [] => [(k, v)]
  | (k0, v0) :: rest =>
      if jvalBeq k0 k then (k0, v) :: rest else (k0, v0) :: cstoreSet rest k v

/-- Dict assignment `self.data_store[key] = ...`: raises `TypeError`
when the key is unhashable (a list or a dict). -/
def cstoreSetE (store : CStore) (k v : JVal) : Except String CStore :=
  if pyHashable k then Except.ok (cstoreSet store k v)
  else Except.error "TypeError: unhashable type"

/-- `CustomMCP.store_data`.  The body has no `try`: the unhashable-key
`TypeError` of the dict assignment escapes the tool (`Except.error`). -/
def storeData (env : CustomEnv) (store : CStore) (key value : JVal) :
    Except String (JVal × CStore) :=
  cstoreSetE store key (JVal.obj [("value", value), ("timestamp", JVal.str env.now)]) >>=
  fun store2 => Except.ok
    ( content [text ("Stored " ++ sq ++ pyStr key ++ sq ++ " = " ++ sq ++ pyStr value ++ sq)]
    , store2 )

/-- `CustomMCP.get_data`.  The body has no `try`: the unhashable-key
`TypeError` of `key in self.data_store` escapes the tool. -/
def getData (store : CStore) (key : JVal) : Except String JVal :=
  if pyHashable key then
    Except.ok
      (match store.lookup key with
       | some d => content [text (jsonDumpIndent2 d)]
       | none => jerr ("Key " ++ sq ++ pyStr key ++ sq ++ " not found"))
  else Except.error "TypeError: unhashable type"

/-- The `weather_info` extraction of `CustomMCP.get_weather` from the
parsed response body. -/
def weatherInfoOf (city body : JVal) : Except String JVal := do
  let cc ← jGetE body "current_condition"
  let cur ← jIndexE cc 0
  let temp ← jGetE cur "temp_C"
  let wd ← jGetE cur "weatherDesc"
  let w0 ← jIndexE wd 0
  let desc ← jGetE w0 "value"
  pure (JVal.obj
    [ ("city", city)
    , ("temperature", JVal.str (pyStr temp ++ "°C"))
    , ("description", desc) ])

/-- `CustomMCP.get_weather`: every exception inside the body is caught
and wrapped, so the tool itself never raises. -/
def getWeather (env : CustomEnv) (city : JVal) : JVal :=
  match env.weatherGet ("https://wttr.in/" ++ pyStr city ++ "?format=j1") with
  | Except.error e => jerr ("Weather request failed: " ++ e)
  | Except.ok (status, body) =>
    if status == 200 then
      match weatherInfoOf city body with
      | Except.ok info => content [text (jsonDumpIndent2 info)]
      | Except.error e => jerr ("Weather request failed: " ++ e)
    else jerr ("Weather API error: " ++ toString status)

/-- The tool registry the custom server returns on `tools/list`. -/
def customRegistry : List JVal :=
  [ JVal.obj
      [ ("name", JVal.str "store_data")
      , ("description", JVal.str "Store key-value data")
      , ("inputSchema", JVal.obj
          [ ("type", JVal.str "object")
          , ("properties", JVal.obj
              [ ("key", JVal.obj [("type", JVal.str "string"), ("description", JVal.str "Data key")])
              , ("value", JVal.obj [("type", JVal.str "string"), ("description", JVal.str "Data value")]) ])
          , ("required", JVal.arr [JVal.str "key", JVal.str "value"]) ]) ]
  , JVal.obj
      [ ("name", JVal.str "get_data")
      , ("description", JVal.str "Retrieve stored data")
      , ("inputSchema", JVal.obj
          [ ("type", JVal.str "object")
          , ("properties", JVal.obj
              [ ("key", JVal.obj [("type", JVal.str "string"), ("description", JVal.str "Data key")]) ])
          , ("required", JVal.arr [JVal.str "key"]) ]) ]
  , JVal.obj
      [ ("name", JVal.str "get_weather")
      , ("description", JVal.str "Get weather info")
      , ("inputSchema", JVal.obj
          [ ("type", JVal.str "object")
          , ("properties", JVal.obj
              [ ("city", JVal.obj [("type", JVal.str "string"), ("description", JVal.str "City name")]) ])
          , ("required", JVal.arr [JVal.str "city"]) ]) ] ]

/-- `CustomMCP.handle_request`.  Note that the required-argument
subscripts `args['key']`, `args['value']`, `args['city']` sit in the
dispatch itself, outside any `try`: their `KeyError` escapes as the
`Except.error` of this function. -/
def customHandle (env : CustomEnv) (store : CStore) (request : JVal) :
    Except String (JVal × CStore) := do
  let method ← pyGetD request "method" JVal.null
  let params ← pyGetD request "params" (JVal.obj [])
  if jvalBeq method (JVal.str "tools/list") then
    pure (JVal.obj [("tools", JVal.arr customRegistry)], store)
  else if jvalBeq method (JVal.str "tools/call") then do
    let toolName ← pyGetD params "name" JVal.null
    let args ← pyGetD params "arguments" (JVal.obj [])
    if jvalBeq toolName (JVal.str "store_data") then do
      let k ← jGetE args "key"
      let v ← jGetE args "value"
      storeData env store k v
    else if jvalBeq toolName (JVal.str "get_data") then do
      let k ← jGetE args "key"
      let r ← getData store k
      pure (r, store)
    else if jvalBeq toolName (JVal.str "get_weather") then do
      let c ← jGetE args "city"
      pure (getWeather env c, store)
    else pure (jerr "Unknown method", store)
  else pure (jerr "Unknown method", store)

/-- An HTTP reply: status code and JSON body. -/
structure HttpReply where
  status : Nat
  body : JVal

/-- `MCPHandler.do_POST` of the custom server.  `parsed` is the outcome
of `json.loads(post_data)`; an exception from the parse or from
`handle_request` is answered with status 500 and `{error: message}`. -/
def customDoPost (env : CustomEnv) (store : CStore) (parsed : Except String JVal) :
    HttpReply × CStore :=
  match parsed with
  | Except.error e => (⟨500, jerr e⟩, store)
  | Except.ok req =>
    match customHandle env store req with
    | Except.ok (resp, st) => (⟨200, resp⟩, st)
    | Except.error e => (⟨500, jerr e⟩, store)

/-! ## AWS MCP server (`src/services/mcp/aws/aws-server.py`) -/

/-- Defaults of the module-level environment constants. -/
def defaultModelId : String := "amazon.titan-text-lite-v1"

def droneGlueDatabase : String := "nexus_observations"

def droneGlueTable : String := "drone_catalog"

/-- Construction-time state of `AWSMCP`: whether `init_aws_session`
succeeded (the boto3 clients exist exactly when it did), and the
`DRONE_PROCESSED_STREAM` environment variable. -/
structure AwsState where
  hasSession : Bool
  processedStream : Option String

/-- Projection of one Glue job run as built by `get_glue_job_status`. -/
structure GlueRunInfo where
  state : JVal
  startedOn : JVal
  completedOn : JVal
  executionTime : JVal

/-- External collaborators of the AWS server, one oracle per boto3 call
chain.  `listBuckets` yields the bucket names of `list_buckets`;
`invokeModel` is the Bedrock invocation including body read and
`json.loads`; `listGlueJobs` yields the summarized jobs projection of
`get_jobs`; `startGlueJob` yields the `JobRunId`; `glueJobStatus` yields
the projected run record; `getTableCols` yields the catalog column names
of `get_table` (its `Except.error` is the caught `ClientError`);
`putRecord stream data partitionKey` is `kinesis.put_record`. -/
structure AwsEnv where
  listBuckets : Except String (List String)
  invokeModel : JVal → JVal → Int → Except String JVal
  listGlueJobs : Except String JVal
  startGlueJob : JVal → Except String String
  glueJobStatus : JVal → JVal → Except String GlueRunInfo
  getTableCols : Except String (List String)
  putRecord : String → String → JVal → Except String Unit

/-- `AWSMCP.list_s3_buckets`. -/
def awsListS3Buckets (env : AwsEnv) : JVal :=
  match env.listBuckets with
  | Except.ok names => content [text (jsonDump (JVal.arr (names.map JVal.str)))]
  | Except.error e => jerr ("S3 error: " ++ e)

/-- Python `min(v, c)` for a JSON value against an integer ceiling
(`TypeError` on non-numbers; booleans compare as 0/1). -/
def pyMinInt (v : JVal) (c : Int) : Except String Int :=
  match v with
  | JVal.num n => Except.ok (min n c)
  | JVal.bool b => Except.ok (min (if b then (1 : Int) else 0) c)
  | _ => Except.error "TypeError: int comparison with a non-number"

/-- `AWSMCP.invoke_bedrock_model`: clamps the caller token count with
`min(max_tokens, 3072)`, invokes the model, extracts
`result["results"][0]["outputText"]`; all failures are caught. -/
def awsInvokeBedrockModel (env : AwsEnv) (prompt maxTokens modelId : JVal) : JVal :=
  match (do
    let mt ← pyMinInt maxTokens 3072
    let body ← env.invokeModel modelId prompt mt
    let results ← jGetE body "results"
    let first ← jIndexE results 0
    jGetE first "outputText") with
  | Except.ok out => content [textJ out]
  | Except.error e => jerr ("Bedrock error: " ++ e)

/-- `AWSMCP.list_glue_jobs`. -/
def awsListGlueJobs (env : AwsEnv) : JVal :=
  match env.listGlueJobs with
  | Except.ok jobs => content [text (jsonDumpIndent2 jobs)]
  | Except.error e => jerr ("Glue error: " ++ e)

/-- `AWSMCP.start_glue_job`. -/
def awsStartGlueJob (env : AwsEnv) (jobName : JVal) : JVal :=
  match env.startGlueJob jobName with
  | Except.ok runId => content [text (jsonDumpIndent2 (JVal.obj
      [ ("job_name", jobName)
      , ("run_id", JVal.str runId)
      , ("status", JVal.str "STARTING") ]))]
  | Except.error e => jerr ("Glue job start error: " ++ e)

/-- `AWSMCP.get_glue_job_status`. -/
def awsGetGlueJobStatus (env : AwsEnv) (jobName runId : JVal) : JVal :=
  match env.glueJobStatus jobName runId with
  | Except.ok i => content [text (jsonDumpIndent2 (JVal.obj
      [ ("job_name", jobName)
      , ("run_id", runId)
      , ("state", i.state)
      , ("started_on", i.startedOn)
      , ("completed_on", i.completedOn)
      , ("execution_time", i.executionTime) ]))]
  | Except.error e => jerr ("Glue job status error: " ++ e)

/-- The schema projection of `process_drone_event`: keep the payload
columns present in the catalog column list, then fill the fixed default
fields when absent. -/
def droneNormalize (cols : List String) (pf : List (String × JVal)) :
    Except String (List (String × JVal)) := do
  let normalized0 := cols.foldl
      (fun acc col =>
        match pf.lookup col with
        | some v => objSet acc col v
        | none => acc) []
  let n1 := objSetDefault normalized0 "drone_id" ((pf.lookup "droneId").getD JVal.null)
  let n2 := objSetDefault n1 "captured_at" ((pf.lookup "timestamp").getD JVal.null)
  let posV := (pf.lookup "position").getD JVal.null
  let n5 ←
    if pyFalsy posV then pure n2
    else
      match posV with
      | JVal.obj posf =>
          pure (objSetDefault
            (objSetDefault
              (objSetDefault n2 "latitude" ((posf.lookup "lat").getD JVal.null))
              "longitude" ((posf.lookup "lon").getD JVal.null))
            "altitude_m" ((posf.lookup "alt").getD JVal.null))
      | _ => Except.error "AttributeError: object has no attribute get (position)"
  let sensV := (pf.lookup "sensors").getD JVal.null
  pure (if pyFalsy sensV then n5 else objSetDefault n5 "sensor_snapshot" sensV)

/-- The partition key of `process_drone_event`:
`args.get("partitionKey") or payload.get("droneId") or "nexus-drone"`,
applied to the already-fetched `args.get("partitionKey")` value. -/
def awsDronePk (a0 : JVal) (pf : List (String × JVal)) : JVal :=
  let a1 := if pyFalsy a0 then (pf.lookup "droneId").getD JVal.null else a0
  if pyFalsy a1 then JVal.str "nexus-drone" else a1

/-- The `enriched_event` record published to Kinesis. -/
def droneEnriched (payload : JVal) (normalized : List (String × JVal)) : JVal :=
  JVal.obj
    [ ("raw", payload)
    , ("normalized", JVal.obj normalized)
    , ("catalogReference", JVal.obj
        [ ("database", JVal.str droneGlueDatabase)
        , ("table", JVal.str droneGlueTable) ]) ]

/-- The publish-and-report tail of `process_drone_event`. -/
def dronePublish (env : AwsEnv) (stream : String) (payload : JVal)
    (normalized : List (String × JVal)) (pk : JVal) : Except String JVal :=
  match env.putRecord stream (jsonDump (droneEnriched payload normalized)) pk with
  | Except.error e => pure (jerr ("Failed to publish to processed stream: " ++ e))
  | Except.ok _ => pure (content [text (jsonDumpIndent2 (JVal.obj
      [ ("status", JVal.str "processed")
      , ("partitionKey", pk)
      , ("stream", JVal.str stream)
      , ("attributes", JVal.arr (normalized.map (fun p => JVal.str p.1))) ]))])

/-- `AWSMCP.process_drone_event`.  Only the catalog lookup and the
Kinesis publish sit inside `except ClientError` handlers; a malformed
`position` attribute raises out of the tool (`Except.error`). -/
def processDroneEvent (st : AwsState) (env : AwsEnv) (args : JVal) :
    Except String JVal :=
  if (st.processedStream.getD "") = "" then
    pure (jerr "DRONE_PROCESSED_STREAM environment variable not configured")
  else if st.hasSession = false then
    pure (jerr "AWS clients unavailable")
  else do
    let payload ← pyGetD args "payload" JVal.null
    match payload with
    | JVal.obj pf => do
      let a0 ← pyGetD args "partitionKey" JVal.null
      let pk := awsDronePk a0 pf
      match env.getTableCols with
      | Except.error e => pure (jerr ("Glue catalog lookup failed: " ++ e))
      | Except.ok cols => do
        let normalized ← droneNormalize cols pf
        dronePublish env (st.processedStream.getD "") (JVal.obj pf) normalized pk
    | _ => pure (jerr "payload must be a JSON object")

/-- The six-descriptor tool registry the AWS server returns on
`tools/list`. -/
def awsRegistry : List JVal :=
  [ JVal.obj
      [ ("name", JVal.str "list_s3_buckets")
      , ("description", JVal.str "List S3 buckets")
      , ("inputSchema", JVal.obj [("type", JVal.str "object"), ("properties", JVal.obj [])]) ]
  , JVal.obj
      [ ("name", JVal.str "invoke_bedrock_model")
      , ("description", JVal.str "Invoke Bedrock model")
      , ("inputSchema", JVal.obj
          [ ("type", JVal.str "object")
          , ("properties", JVal.obj
              [ ("prompt", JVal.obj [("type", JVal.str "string"), ("description", JVal.str "Text prompt")])
              , ("max_tokens", JVal.obj [("type", JVal.str "integer"), ("default", JVal.num 100)])
              , ("model_id", JVal.obj [("type", JVal.str "string"), ("description", JVal.str "Override model ID")]) ])
          , ("required", JVal.arr [JVal.str "prompt"]) ]) ]
  , JVal.obj
      [ ("name", JVal.str "list_glue_jobs")
      , ("description", JVal.str "List AWS Glue jobs")
      , ("inputSchema", JVal.obj [("type", JVal.str "object"), ("properties", JVal.obj [])]) ]
  , JVal.obj
      [ ("name", JVal.str "start_glue_job")
      , ("description", JVal.str "Start a Glue job run")
      , ("inputSchema", JVal.obj
          [ ("type", JVal.str "object")
          , ("properties", JVal.obj
              [ ("job_name", JVal.obj [("type", JVal.str "string"), ("description", JVal.str "Glue job name")]) ])
          , ("required", JVal.arr [JVal.str "job_name"]) ]) ]
  , JVal.obj
      [ ("name", JVal.str "get_glue_job_status")
      , ("description", JVal.str "Get Glue job run status")
      , ("inputSchema", JVal.obj
          [ ("type", JVal.str "object")
          , ("properties", JVal.obj
              [ ("job_name", JVal.obj [("type", JVal.str "string"), ("description", JVal.str "Glue job name")])
              , ("run_id", JVal.obj [("type", JVal.str "string"), ("description", JVal.str "Job run ID")]) ])
          , ("required", JVal.arr [JVal.str "job_name", JVal.str "run_id"]) ]) ]
  , JVal.obj
      [ ("name", JVal.str "process_drone_event")
      , ("description", JVal.str "Normalize drone telemetry against the Glue catalog and emit a silver-tier record to Kinesis.")
      , ("inputSchema", JVal.obj
          [ ("type", JVal.str "object")
          , ("properties", JVal.obj
              [ ("payload", JVal.obj [("type", JVal.str "object"), ("description", JVal.str "Raw drone payload as parsed JSON")])
              , ("partitionKey", JVal.obj [("type", JVal.str "string"), ("description", JVal.str "Partition key for the processed Kinesis stream")]) ])
          , ("required", JVal.arr [JVal.str "payload"]) ]) ] ]

/-- `AWSMCP.handle_request`.  The credentials check guards only
`tools/call`; `tools/list` is answered before it.  Required-argument
subscripts sit outside any `try` and escape as `Except.error`. -/
def awsHandle (st : AwsState) (env : AwsEnv) (request : JVal) : Except String JVal := do
  let method ← pyGetD request "method" JVal.null
  let params ← pyGetD request "params" (JVal.obj [])
  if jvalBeq method (JVal.str "tools/list") then
    pure (JVal.obj [("tools", JVal.arr awsRegistry)])
  else if jvalBeq method (JVal.str "tools/call") then
    if st.hasSession = false then pure (jerr "AWS credentials not configured")
    else do
      let toolName ← pyGetD params "name" JVal.null
      let args ← pyGetD params "arguments" (JVal.obj [])
      if jvalBeq toolName (JVal.str "list_s3_buckets") then
        pure (awsListS3Buckets env)
      else if jvalBeq toolName (JVal.str "invoke_bedrock_model") then do
        let prompt ← jGetE args "prompt"
        let mt ← pyGetD args "max_tokens" (JVal.num 100)
        let mid0 ← pyGetD args "model_id" JVal.null
        let mid := if pyFalsy mid0 then JVal.str defaultModelId else mid0
        pure (awsInvokeBedrockModel env prompt mt mid)
      else if jvalBeq toolName (JVal.str "list_glue_jobs") then
        pure (awsListGlueJobs env)
      else if jvalBeq toolName (JVal.str "start_glue_job") then do
        let jn ← jGetE args "job_name"
        pure (awsStartGlueJob env jn)
      else if jvalBeq toolName (JVal.str "get_glue_job_status") then do
        let jn ← jGetE args "job_name"
        let rid ← jGetE args "run_id"
        pure (awsGetGlueJobStatus env jn rid)
      else if jvalBeq toolName (JVal.str "process_drone_event") then
        processDroneEvent st env args
      else pure (jerr "Unknown method")
  else pure (jerr "Unknown method")

/-- `MCPHandler.do_POST` of the AWS (and database/k8s) servers, which
hold no mutable store. -/
def mcpDoPost (handler : JVal → Except String JVal) (parsed : Except String JVal) :
    HttpReply :=
  match parsed with
  | Except.error e => ⟨500, jerr e⟩
  | Except.ok req =>
    match handler req with
    | Except.ok resp => ⟨200, resp⟩
    | Except.error e => ⟨500, jerr e⟩

/-! ## Kubernetes MCP server (`src/services/mcp/k8s/k8s-server.py`) -/

/-- One pod as summarized by `list_pods`: metadata name, status phase,
per-container ready flags (`container_statuses or []`), and node name
(possibly `None`). -/
structure K8sPod where
  name : JVal
  phase : JVal
  ready : List Bool
  node : JVal

/-- One pod as read by `troubleshoot_pod`: status phase and the
(name, ready) pairs of `container_statuses or []`. -/
structure K8sTsPod where
  phase : String
  containers : List (String × Bool)

/-- External collaborators of the Kubernetes server, one oracle per
API-client call; `Except.error` is the caught `ApiException`. -/
structure K8sEnv where
  listPods : JVal → Except String (List K8sPod)
  scaleDeployment : JVal → JVal → JVal → Except String Unit
  listNodes : Except String (List (JVal × List (String × String)))
  readPod : JVal → JVal → Except String K8sTsPod

/-- `KubernetesMCP.list_pods`. -/
def k8sListPods (env : K8sEnv) (ns : JVal) : JVal :=
  match env.listPods ns with
  | Except.ok pods => content [text (jsonDumpIndent2 (JVal.arr (pods.map (fun p =>
      JVal.obj
        [ ("name", p.name)
        , ("status", p.phase)
        , ("ready", JVal.num (Int.ofNat (p.ready.countP (fun b => b))))
        , ("node", p.node) ]))))]
  | Except.error e => jerr ("Kubernetes API error: " ++ e)

/-- `KubernetesMCP.scale_deployment`. -/
def k8sScaleDeployment (env : K8sEnv) (name ns replicas : JVal) : JVal :=
  match env.scaleDeployment name ns replicas with
  | Except.ok _ => content [text ("Scaled " ++ pyStr name ++ " to " ++ pyStr replicas ++ " replicas")]
  | Except.error e => jerr ("Could not scale deployment: " ++ e)

/-- `KubernetesMCP.get_cluster_status`. -/
def k8sGetClusterStatus (env : K8sEnv) : JVal :=
  match env.listNodes with
  | Except.ok nodes => content [text (jsonDumpIndent2 (JVal.arr (nodes.map (fun n =>
      JVal.obj
        [ ("name", n.1)
        , ("ready", JVal.str ((n.2.lookup "Ready").getD "Unknown")) ]))))]
  | Except.error e => jerr ("Could not get cluster status: " ++ e)

/-- `KubernetesMCP.troubleshoot_pod`. -/
def k8sTroubleshootPod (env : K8sEnv) (podName ns : JVal) : JVal :=
  match env.readPod podName ns with
  | Except.ok pod =>
    let issues0 : List JVal :=
      if pod.phase == "Running" then []
      else [JVal.str ("Pod is in " ++ pod.phase ++ " state")]
    let issues := issues0 ++ pod.containers.filterMap (fun c =>
      if c.2 then none else some (JVal.str ("Container " ++ c.1 ++ " is not ready")))
    content [text (jsonDumpIndent2 (JVal.obj
      [ ("pod_name", podName)
      , ("status", JVal.str pod.phase)
      , ("issues", JVal.arr issues) ]))]
  | Except.error e => jerr ("Could not troubleshoot pod: " ++ e)

/-- `KubernetesMCP.handle_request` (tool dispatch; the `tools/list`
registry is elided here since no claim touches it). -/
def k8sHandle (env : K8sEnv) (request : JVal) : Except String JVal := do
  let method ← pyGetD request "method" JVal.null
  let params ← pyGetD request "params" (JVal.obj [])
  if jvalBeq method (JVal.str "tools/call") then do
    let toolName ← pyGetD params "name" JVal.null
    let args ← pyGetD params "arguments" (JVal.obj [])
    if jvalBeq toolName (JVal.str "list_pods") then do
      let ns ← pyGetD args "namespace" (JVal.str "default")
      pure (k8sListPods env ns)
    else if jvalBeq toolName (JVal.str "scale_deployment") then do
      let dn ← jGetE args "deployment_name"
      let ns ← pyGetD args "namespace" (JVal.str "default")
      let rs ← jGetE args "replicas"
      pure (k8sScaleDeployment env dn ns rs)
    else if jvalBeq toolName (JVal.str "get_cluster_status") then
      pure (k8sGetClusterStatus env)
    else if jvalBeq toolName (JVal.str "troubleshoot_pod") then do
      let pn ← jGetE args "pod_name"
      let ns ← pyGetD args "namespace" (JVal.str "default")
      pure (k8sTroubleshootPod env pn ns)
    else pure (jerr "Unknown method")
  else pure (jerr "Unknown method")

/-! ## SQLite MCP server (`src/services/mcp/database/sqlite-server.py`) -/

/-- Outcome of driving sqlite3 with one statement: the rows `fetchall`
would return (as dicts via `sqlite3.Row`), the cursor `rowcount`, and
whether `conn.commit()` would raise. -/
structure SqlOutcome where
  rows : List JVal
  rowcount : Int
  commitErr : Option String

/-- The sqlite3 collaborator: `run q` models `cursor.execute(q)`;
`Except.error` is a raised exception. -/
structure SqlEnv where
  run : String → Except String SqlOutcome

/-- Result of `execute_query` together with whether a commit happened. -/
structure SqlReply where
  resp : JVal
  committed : Bool

/-- The read-versus-write test of `execute_query`:
`query.strip().upper().startswith("SELECT")`. -/
def startsSelect (q : String) : Bool :=
  leadsList "SELECT".data (pyUpper (pyStrip q)).data

/-- `SQLiteMCP.execute_query`.  A non-string query makes
`cursor.execute` raise inside the `try`, which is caught. -/
def executeQuery (env : SqlEnv) (query : JVal) : SqlReply :=
  match query with
  | JVal.str q =>
    match env.run q with
    | Except.error e => ⟨jerr e, false⟩
    | Except.ok oc =>
      if startsSelect q then
        ⟨content [text (jsonDumpIndent2 (JVal.arr oc.rows))], false⟩
      else
        match oc.commitErr with
        | some e => ⟨jerr e, false⟩
        | none => ⟨content [text ("Query executed. Rows affected: " ++ toString oc.rowcount)], true⟩
  | _ => ⟨jerr "TypeError: execute expects a string statement", false⟩

/-- `SQLiteMCP.handle_request` (tool dispatch). -/
def sqliteHandle (env : SqlEnv) (request : JVal) : Except String SqlReply := do
  let method ← pyGetD request "method" JVal.null
  let params ← pyGetD request "params" (JVal.obj [])
  if jvalBeq method (JVal.str "tools/call") then do
    let toolName ← pyGetD params "name" JVal.null
    let args ← pyGetD params "arguments" (JVal.obj [])
    if jvalBeq toolName (JVal.str "execute_query") then do
      let q ← jGetE args "query"
      pure (executeQuery env q)
    else pure ⟨jerr "Unknown method", false⟩
  else pure ⟨jerr "Unknown method", false⟩

/-! ## The ToolCallResult well-formedness predicate -/

/-- A well-formed `ToolCallResult`: a one-key dict that is either
`{content: [...]}` or `{error: string}` — never both, never empty. -/
def isToolCallResult : JVal → Bool
  | JVal.obj [(k, JVal.arr _)] => k == "content"
  | JVal.obj [(k, JVal.str _)] => k == "error"
  | _ => false

/-- Lift `isToolCallResult` over a possibly-raising tool body: a path
that raises produces no result at all, so only `Except.ok` is checked. -/
def okWellFormed : Except String JVal → Bool
  | Except.ok r => isToolCallResult r
  | Except.error _ => true

/-- The same for store-threading tool bodies of the custom server. -/
def okWellFormedP : Except String (JVal × CStore) → Bool
  | Except.ok p => isToolCallResult p.1
  | Except.error _ => true

/-! ## Helper lemmas -/

theorem exbind_ok {α β : Type} (a : α) (f : α → Except String β) :
    (Except.ok a >>= f) = f a := rfl

theorem exbind_err {α β : Type} (e : String) (f : α → Except String β) :
    ((Except.error e : Except String α) >>= f) = Except.error e := rfl

theorem okWellFormed_bind {α : Type} (x : Except String α) (f : α → Except String JVal)
    (h : ∀ a, okWellFormed (f a) = true) : okWellFormed (x >>= f) = true := by
  cases x with
  | ok a => exact h a
  | error e => rfl

/-- Classification bridge: after successful task extraction,
`execute_workflow` is exactly the branch body selected by `classify`. -/
theorem executeWorkflow_classify (cfg : AgentCoreCfg) (env : AgentEnv) (wf : JVal)
    (task : String)
    (htask : pyGetD wf "task" (JVal.str "") = Except.ok (JVal.str task)) :
    executeWorkflow cfg env wf =
      match classify task with
      | some g => runGroup g cfg env task wf
      | none => Except.ok (JVal.obj [("error", JVal.str "Unknown workflow")]) := by
  unfold executeWorkflow
  rw [htask, exbind_ok]
  show (taskStrE (JVal.str task) >>= fun task => _) = _
  rw [show taskStrE (JVal.str task) = Except.ok task from rfl, exbind_ok]
  unfold classify runGroup
  by_cases h1 : containsSub (pyLower task) "bedrock"
  · simp [h1]
  · by_cases h2 : containsSub (pyLower task) "s3"
    · simp [h1, h2]
    · by_cases h3 : containsSub (pyLower task) "weather"
      · simp [h1, h2, h3]
      · by_cases h4 : containsSub (pyLower task) "database"
        · simp [h1, h2, h3, h4]
        · by_cases h5 : (containsSub (pyLower task) "kubernetes" || containsSub (pyLower task) "k8s") = true
          · simp [h1, h2, h3, h4, h5]
          · by_cases h6 : containsSub (pyLower task) "drone"
            · simp [h1, h2, h3, h4, h5, h6]
            · by_cases h7 : containsSub (pyLower task) "glue"
              · simp [h1, h2, h3, h4, h5, h6, h7]
              · simp [h1, h2, h3, h4, h5, h6, h7]
                rfl

/-- First-match rule of the classifier: a keyword of `g` with no keyword
of any earlier group selects `g`. -/
theorem classify_of_kw (task : String) (g : WGroup)
    (h1 : taskHasGroupKw task g = true)
    (h2 : ∀ g2, groupIdx g2 < groupIdx g → taskHasGroupKw task g2 = false) :
    classify task = some g := by
  have e0 : groupIdx WGroup.bedrockTest = 0 := rfl
  cases g with
  | bedrockTest =>
      simp only [taskHasGroupKw, groupKeywords, List.any_cons, List.any_nil,
        Bool.or_false] at h1
      simp [classify, h1]
  | s3List =>
      have k0 := h2 WGroup.bedrockTest (by decide)
      simp only [taskHasGroupKw, groupKeywords, List.any_cons, List.any_nil,
        Bool.or_false] at h1 k0
      simp [classify, h1, k0]
  | weatherA =>
      have k0 := h2 WGroup.bedrockTest (by decide)
      have k1 := h2 WGroup.s3List (by decide)
      simp only [taskHasGroupKw, groupKeywords, List.any_cons, List.any_nil,
        Bool.or_false] at h1 k0 k1
      simp [classify, h1, k0, k1]
  | databaseQuery =>
      have k0 := h2 WGroup.bedrockTest (by decide)
      have k1 := h2 WGroup.s3List (by decide)
      have k2 := h2 WGroup.weatherA (by decide)
      simp only [taskHasGroupKw, groupKeywords, List.any_cons, List.any_nil,
        Bool.or_false] at h1 k0 k1 k2
      simp [classify, h1, k0, k1, k2]
  | clusterOps =>
      have k0 := h2 WGroup.bedrockTest (by decide)
      have k1 := h2 WGroup.s3List (by decide)
      have k2 := h2 WGroup.weatherA (by decide)
      have k3 := h2 WGroup.databaseQuery (by decide)
      simp only [taskHasGroupKw, groupKeywords, List.any_cons, List.any_nil,
        Bool.or_false] at h1 k0 k1 k2 k3
      simp [classify, k0, k1, k2, k3, h1]
  | droneIngest =>
      have k0 := h2 WGroup.bedrockTest (by decide)
      have k1 := h2 WGroup.s3List (by decide)
      have k2 := h2 WGroup.weatherA (by decide)
      have k3 := h2 WGroup.databaseQuery (by decide)
      have k4 := h2 WGroup.clusterOps (by decide)
      simp only [taskHasGroupKw, groupKeywords, List.any_cons, List.any_nil,
        Bool.or_false, Bool.or_eq_false_iff] at h1 k0 k1 k2 k3 k4
      simp [classify, k0, k1, k2, k3, k4.1, k4.2, h1]
  | glueJob =>
      have k0 := h2 WGroup.bedrockTest (by decide)
      have k1 := h2 WGroup.s3List (by decide)
      have k2 := h2 WGroup.weatherA (by decide)
      have k3 := h2 WGroup.databaseQuery (by decide)
      have k4 := h2 WGroup.clusterOps (by decide)
      have k5 := h2 WGroup.droneIngest (by decide)
      simp only [taskHasGroupKw, groupKeywords, List.any_cons, List.any_nil,
        Bool.or_false, Bool.or_eq_false_iff] at h1 k0 k1 k2 k3 k4 k5
      simp [classify, k0, k1, k2, k3, k4.1, k4.2, k5, h1]

/-- A task the classifier rejects carries no keyword of any group. -/
theorem classify_none_no_kw (task : String) (h : classify task = none) :
    ∀ g, taskHasGroupKw task g = false := by
  intro g
  unfold classify at h
  by_cases c1 : containsSub (pyLower task) "bedrock"
  · simp [c1] at h
  · by_cases c2 : containsSub (pyLower task) "s3"
    · simp [c1, c2] at h
    · by_cases c3 : containsSub (pyLower task) "weather"
      · simp [c1, c2, c3] at h
      · by_cases c4 : containsSub (pyLower task) "database"
        · simp [c1, c2, c3, c4] at h
        · by_cases c5 : containsSub (pyLower task) "kubernetes"
          · simp [c1, c2, c3, c4, c5] at h
          · by_cases c6 : containsSub (pyLower task) "k8s"
            · simp [c1, c2, c3, c4, c5, c6] at h
            · by_cases c7 : containsSub (pyLower task) "drone"
              · simp [c1, c2, c3, c4, c5, c6, c7] at h
              · by_cases c8 : containsSub (pyLower task) "glue"
                · simp [c1, c2, c3, c4, c5, c6, c7, c8] at h
                · cases g <;>
                    simp [taskHasGroupKw, groupKeywords, c1, c2, c3, c4, c5, c6, c7, c8]

/-- C1: a task containing a keyword of group G and no keyword of any
earlier group in the fixed priority order
bedrock-test, s3, weather, database, kubernetes/k8s, drone, glue is
classified as G, and `execute_workflow` runs exactly that group's
branch; a task with "database" (and nothing earlier) is classified as
the relational-query group even when a cluster-ops keyword is present;
a task matching no group yields `{error: "Unknown workflow"}`. -/
theorem claim_C1 :
    (∀ task g, taskHasGroupKw task g = true →
      (∀ g2, groupIdx g2 < groupIdx g → taskHasGroupKw task g2 = false) →
      classify task = some g)
    ∧ (∀ cfg env wf task,
        pyGetD wf "task" (JVal.str "") = Except.ok (JVal.str task) →
        executeWorkflow cfg env wf =
          match classify task with
          | some g => runGroup g cfg env task wf
          | none => Except.ok (JVal.obj [("error", JVal.str "Unknown workflow")]))
    ∧ (∀ task, containsSub (pyLower task) "database" = true →
        taskHasGroupKw task WGroup.bedrockTest = false →
        taskHasGroupKw task WGroup.s3List = false →
        taskHasGroupKw task WGroup.weatherA = false →
        classify task = some WGroup.databaseQuery)
    ∧ (∀ task, classify task = none → ∀ g, taskHasGroupKw task g = false)
    ∧ (∀ cfg env wf task,
        pyGetD wf "task" (JVal.str "") = Except.ok (JVal.str task) →
        classify task = none →
        executeWorkflow cfg env wf =
          Except.ok (JVal.obj [("error", JVal.str "Unknown workflow")])) := by
  refine ⟨classify_of_kw, executeWorkflow_classify, ?_, classify_none_no_kw, ?_⟩
  · intro task hdb h0 h1 h2
    refine classify_of_kw task WGroup.databaseQuery ?_ ?_
    · simp [taskHasGroupKw, groupKeywords, hdb]
    · intro g2 hlt
      cases g2 with
      | bedrockTest => exact h0
      | s3List => exact h1
      | weatherA => exact h2
      | databaseQuery => exact absurd hlt (by decide)
      | clusterOps => exact absurd hlt (by decide)
      | droneIngest => exact absurd hlt (by decide)
      | glueJob => exact absurd hlt (by decide)
  · intro cfg env wf task htask hnone
    rw [executeWorkflow_classify cfg env wf task htask, hnone]

/-- Witness for C1: a task containing both a cluster-ops keyword and
"database" is classified as the relational-query group. -/
theorem claim_C1_witness :
    taskHasGroupKw "scale the k8s Database cluster" WGroup.databaseQuery = true
    ∧ (∀ g2, groupIdx g2 < groupIdx WGroup.databaseQuery →
        taskHasGroupKw "scale the k8s Database cluster" g2 = false)
    ∧ classify "scale the k8s Database cluster" = some WGroup.databaseQuery :=
  ⟨by decide, by decide, claim_C1.1 _ _ (by decide) (by decide)⟩

/-! ## The weather / drone / glue branches in step form -/

/-- One `StepRecord`. -/
def stepRec (label : String) (r : JVal) : JVal :=
  JVal.obj [("step", JVal.str label), ("result", r)]

/-- First weather step: the `get_weather` tool call on the custom server. -/
def weatherStep1 (cfg : AgentCoreCfg) (env : AgentEnv) (city : JVal) : JVal :=
  callMcpTool cfg env "custom" "get_weather" (JVal.obj [("city", city)])

/-- Second weather step: the reasoning call whose prompt interpolates the
full result of the first step. -/
def weatherStep2 (cfg : AgentCoreCfg) (env : AgentEnv) (city : JVal) : JVal :=
  invokeBedrock cfg env ("Analyze this weather: " ++ pyStr (weatherStep1 cfg env city))

/-- Third weather step: store the analysis under key `weather_<city>`. -/
def weatherStep3 (cfg : AgentCoreCfg) (env : AgentEnv) (city : JVal) : JVal :=
  callMcpTool cfg env "custom" "store_data"
    (JVal.obj [ ("key", JVal.str ("weather_" ++ pyStr city))
              , ("value", weatherStep2 cfg env city) ])

/-- Full reduction of the weather branch of `execute_workflow`. -/
theorem executeWorkflow_weather (cfg : AgentCoreCfg) (env : AgentEnv) (wf : JVal)
    (task : String) (city : JVal)
    (htask : pyGetD wf "task" (JVal.str "") = Except.ok (JVal.str task))
    (hw : containsSub (pyLower task) "weather" = true)
    (hb : containsSub (pyLower task) "bedrock" = false)
    (hs : containsSub (pyLower task) "s3" = false)
    (hcity : pyGetD wf "city" (JVal.str "San Francisco") = Except.ok city) :
    executeWorkflow cfg env wf = Except.ok (JVal.obj
      [ ("workflow", JVal.str "weather_analysis")
      , ("steps", JVal.arr
          [ stepRec "get_weather" (weatherStep1 cfg env city)
          , stepRec "ai_analysis" (weatherStep2 cfg env city)
          , stepRec "store_result" (weatherStep3 cfg env city) ]) ]) := by
  rw [executeWorkflow_classify cfg env wf task htask]
  have hcls : classify task = some WGroup.weatherA := by
    unfold classify
    simp [hb, hs, hw]
  rw [hcls]
  show runWeather cfg env wf = _
  unfold runWeather
  rw [hcity, exbind_ok]
  rfl

/-- The partition key the drone branch computes:
`workflow.get("partition_key") or event.get("droneId") or "nexus-drone"`. -/
def dronePk (wfFields evFields : List (String × JVal)) : JVal :=
  let pk0 := (wfFields.lookup "partition_key").getD JVal.null
  let pk1 := if pyFalsy pk0 then (evFields.lookup "droneId").getD JVal.null else pk0
  if pyFalsy pk1 then JVal.str "nexus-drone" else pk1

/-- The normalize step: the `process_drone_event` tool call. -/
def droneTransform (cfg : AgentCoreCfg) (env : AgentEnv)
    (wfFields evFields : List (String × JVal)) : JVal :=
  callMcpTool cfg env "aws" "process_drone_event"
    (JVal.obj [ ("payload", JVal.obj evFields)
              , ("partitionKey", dronePk wfFields evFields) ])

theorem any_key_of_lookup {fs : List (String × JVal)} {k : String} {v : JVal}
    (h : fs.lookup k = some v) : fs.any (fun p => p.1 == k) = true := by
  induction fs with
  | nil => simp [List.lookup] at h
  | cons p rest ih =>
    match p with
    | (k0, v0) =>
      by_cases hk : (k == k0) = true
      · have he : k = k0 := eq_of_beq hk
        subst he
        simp [List.any]
      · simp only [Bool.not_eq_true] at hk
        simp only [List.lookup, hk] at h
        simp [List.any, ih h]

theorem lookup_jGetE {fs : List (String × JVal)} {k : String} {v : JVal}
    (h : fs.lookup k = some v) : jGetE (JVal.obj fs) k = Except.ok v := by
  simp [jGetE, h]

/-- The tail of the drone branch once the partition key is fixed:
normalize call, error check, and either the abort object or the
two-step trace. -/
def droneAfterPk (cfg : AgentCoreCfg) (env : AgentEnv)
    (wfFields evFields : List (String × JVal)) : Except String JVal :=
  pyInJE "error" (droneTransform cfg env wfFields evFields) >>= fun hasErr =>
  if hasErr then
    jGetE (droneTransform cfg env wfFields evFields) "error" >>= fun msg =>
    pure (JVal.obj [("workflow", JVal.str "drone_ingest"), ("error", msg)])
  else
    pure (JVal.obj
      [ ("workflow", JVal.str "drone_ingest")
      , ("steps", JVal.arr
          [ stepRec "normalize" (droneTransform cfg env wfFields evFields)
          , stepRec "bedrock_summary" (invokeBedrock cfg env
              ("Summarize this drone telemetry for an ops console, highlighting key metrics: "
               ++ pyStr (droneTransform cfg env wfFields evFields))) ])
      , ("outputStream",
          match cfg.dataPipelines.lookup "processedStream" with
          | some v => JVal.str v
          | none => JVal.null) ])

/-- The drone branch on a dict workflow with a non-empty dict event
reduces to `droneAfterPk`. -/
theorem runDrone_eq (cfg : AgentCoreCfg) (env : AgentEnv)
    (wfFields evFields : List (String × JVal))
    (hev : wfFields.lookup "event" = some (JVal.obj evFields))
    (hevne : evFields ≠ []) :
    runDrone cfg env (JVal.obj wfFields) = droneAfterPk cfg env wfFields evFields := by
  unfold runDrone
  rw [show pyGetD (JVal.obj wfFields) "event" JVal.null =
        Except.ok (JVal.obj evFields) by simp [pyGetD, hev], exbind_ok]
  have hnf : pyFalsy (JVal.obj evFields) = false := by
    cases evFields with
    | nil => exact absurd rfl hevne
    | cons f fs => rfl
  rw [hnf]
  show (do
    let pk0 ← pyGetD (JVal.obj wfFields) "partition_key" JVal.null
    let pk1 ← if pyFalsy pk0 then pyGetD (JVal.obj evFields) "droneId" JVal.null else pure pk0
    let pk := if pyFalsy pk1 then JVal.str "nexus-drone" else pk1
    let transformResult := callMcpTool cfg env "aws" "process_drone_event"
        (JVal.obj [("payload", JVal.obj evFields), ("partitionKey", pk)])
    let hasErr ← pyInJE "error" transformResult
    if hasErr then do
      let msg ← jGetE transformResult "error"
      pure (JVal.obj [("workflow", JVal.str "drone_ingest"), ("error", msg)])
    else
      let summary := invokeBedrock cfg env
          ("Summarize this drone telemetry for an ops console, highlighting key metrics: "
           ++ pyStr transformResult)
      pure (JVal.obj
        [ ("workflow", JVal.str "drone_ingest")
        , ("steps", JVal.arr
            [ JVal.obj [("step", JVal.str "normalize"), ("result", transformResult)]
            , JVal.obj [("step", JVal.str "bedrock_summary"), ("result", summary)] ])
        , ("outputStream",
            match cfg.dataPipelines.lookup "processedStream" with
            | some v => JVal.str v
            | none => JVal.null) ])) = _
  rw [show pyGetD (JVal.obj wfFields) "partition_key" JVal.null =
        Except.ok ((wfFields.lookup "partition_key").getD JVal.null) from rfl, exbind_ok]
  by_cases hf : pyFalsy ((wfFields.lookup "partition_key").getD JVal.null) = true
  · rw [if_pos hf,
        show pyGetD (JVal.obj evFields) "droneId" JVal.null =
          Except.ok ((evFields.lookup "droneId").getD JVal.null) from rfl]
    simp only [exbind_ok]
    have hpk : (if pyFalsy ((evFields.lookup "droneId").getD JVal.null) = true then
        JVal.str "nexus-drone" else (evFields.lookup "droneId").getD JVal.null) =
        dronePk wfFields evFields := by
      unfold dronePk
      simp [hf]
    rw [hpk]
    rfl
  · rw [if_neg hf,
        show (pure ((wfFields.lookup "partition_key").getD JVal.null) : Except String JVal) =
          Except.ok ((wfFields.lookup "partition_key").getD JVal.null) from rfl]
    simp only [exbind_ok]
    have hpk : (if pyFalsy ((wfFields.lookup "partition_key").getD JVal.null) = true then
        JVal.str "nexus-drone" else (wfFields.lookup "partition_key").getD JVal.null) =
        dronePk wfFields evFields := by
      unfold dronePk
      simp [hf]
    rw [hpk]
    rfl

/-- Full reduction of the drone branch when the normalize step's result
carries an `error` key: the workflow aborts with
`{workflow: "drone_ingest", error: <value>}` and no steps. -/
theorem executeWorkflow_drone_error (cfg : AgentCoreCfg) (env : AgentEnv)
    (wfFields : List (String × JVal)) (task : String)
    (evFields : List (String × JVal)) (trFields : List (String × JVal)) (msg : JVal)
    (htask : wfFields.lookup "task" = some (JVal.str task))
    (hd : containsSub (pyLower task) "drone" = true)
    (hb : containsSub (pyLower task) "bedrock" = false)
    (hs : containsSub (pyLower task) "s3" = false)
    (hw : containsSub (pyLower task) "weather" = false)
    (hq : containsSub (pyLower task) "database" = false)
    (hk1 : containsSub (pyLower task) "kubernetes" = false)
    (hk2 : containsSub (pyLower task) "k8s" = false)
    (hev : wfFields.lookup "event" = some (JVal.obj evFields))
    (hevne : evFields ≠ [])
    (htr : droneTransform cfg env wfFields evFields = JVal.obj trFields)
    (hmsg : trFields.lookup "error" = some msg) :
    executeWorkflow cfg env (JVal.obj wfFields) =
      Except.ok (JVal.obj [("workflow", JVal.str "drone_ingest"), ("error", msg)]) := by
  rw [executeWorkflow_classify cfg env (JVal.obj wfFields) task
      (by simp [pyGetD, htask])]
  have hcls : classify task = some WGroup.droneIngest := by
    unfold classify
    simp [hb, hs, hw, hq, hk1, hk2, hd]
  rw [hcls]
  show runDrone cfg env (JVal.obj wfFields) = _
  rw [runDrone_eq cfg env wfFields evFields hev hevne]
  unfold droneAfterPk
  rw [htr]
  rw [show pyInJE "error" (JVal.obj trFields) =
      Except.ok (trFields.any (fun p => p.1 == "error")) from rfl, exbind_ok,
      any_key_of_lookup hmsg, if_pos rfl, lookup_jGetE hmsg, exbind_ok]
  rfl

theorem exbind_tail_err {α β γ : Type} (x : Except String α) (f : α → Except String β)
    (g : β → γ) (e : String) (h : (x >>= f) = Except.error e) :
    (x >>= fun a => f a >>= fun b => Except.ok (g b)) = Except.error e := by
  cases x with
  | error e0 =>
      rw [exbind_err] at h
      rw [exbind_err]
      injection h with h1
      rw [h1]
  | ok a =>
      rw [exbind_ok] at h
      rw [exbind_ok, h, exbind_err]

/-- A concrete collaborator environment for witnesses: every MCP POST
answers with an error body, the reasoning backend raises, and JSON text
never parses. -/
def envAllDown : AgentEnv :=
  { post := fun _ _ => Except.ok (JVal.obj [("error", JVal.str "kinesis unavailable")])
  , invokeModel := fun _ _ _ => Except.error "no backend"
  , parseJson := fun _ => Except.error "invalid json" }

/-- C6: a weather task (containing "weather" and no earlier-priority
keyword) yields `{workflow: "weather_analysis", steps: [...]}` with
exactly the three StepRecords `get_weather`, `ai_analysis`,
`store_result` in that order; the analysis prompt interpolates the full
`get_weather` result (`weatherStep2`), and the store step stores the
analysis under key `weather_<city>` (`weatherStep3`). -/
theorem claim_C6 (cfg : AgentCoreCfg) (env : AgentEnv) (wf : JVal)
    (task : String) (city : JVal)
    (htask : pyGetD wf "task" (JVal.str "") = Except.ok (JVal.str task))
    (hw : containsSub (pyLower task) "weather" = true)
    (hb : containsSub (pyLower task) "bedrock" = false)
    (hs : containsSub (pyLower task) "s3" = false)
    (hcity : pyGetD wf "city" (JVal.str "San Francisco") = Except.ok city) :
    executeWorkflow cfg env wf = Except.ok (JVal.obj
      [ ("workflow", JVal.str "weather_analysis")
      , ("steps", JVal.arr
          [ stepRec "get_weather" (weatherStep1 cfg env city)
          , stepRec "ai_analysis" (weatherStep2 cfg env city)
          , stepRec "store_result" (weatherStep3 cfg env city) ]) ]) :=
  executeWorkflow_weather cfg env wf task city htask hw hb hs hcity

/-- Witness for C6 at Scenario 2 of the spec: `task = "check weather"`,
`city = "Reno"`. -/
theorem claim_C6_witness :
    pyGetD (JVal.obj [("task", JVal.str "check weather"), ("city", JVal.str "Reno")])
        "task" (JVal.str "") = Except.ok (JVal.str "check weather")
    ∧ containsSub (pyLower "check weather") "weather" = true
    ∧ executeWorkflow defaultCfg envAllDown
        (JVal.obj [("task", JVal.str "check weather"), ("city", JVal.str "Reno")]) =
      Except.ok (JVal.obj
        [ ("workflow", JVal.str "weather_analysis")
        , ("steps", JVal.arr
            [ stepRec "get_weather" (weatherStep1 defaultCfg envAllDown (JVal.str "Reno"))
            , stepRec "ai_analysis" (weatherStep2 defaultCfg envAllDown (JVal.str "Reno"))
            , stepRec "store_result" (weatherStep3 defaultCfg envAllDown (JVal.str "Reno")) ]) ]) :=
  ⟨rfl, rfl,
   claim_C6 defaultCfg envAllDown
     (JVal.obj [("task", JVal.str "check weather"), ("city", JVal.str "Reno")])
     "check weather" (JVal.str "Reno") rfl rfl rfl rfl rfl⟩

/-- A drone workflow request whose normalize step will fail. -/
def wfDroneCX : JVal := JVal.obj
  [ ("task", JVal.str "ingest drone telemetry")
  , ("event", JVal.obj [("droneId", JVal.str "dji-mini-1")]) ]

/-- C3 counterexample: the claim says the drone workflow "may not abort
on an error in its normalize step", but when `process_drone_event`
returns `{error: ...}` the code aborts at once, returning
`{workflow: "drone_ingest", error: ...}` with no steps at all. -/
theorem claim_C3_counterexample :
    executeWorkflow defaultCfg envAllDown wfDroneCX =
      Except.ok (JVal.obj
        [ ("workflow", JVal.str "drone_ingest")
        , ("error", JVal.str "kinesis unavailable") ])
    ∧ JVal.hasKey (JVal.obj
        [ ("workflow", JVal.str "drone_ingest")
        , ("error", JVal.str "kinesis unavailable") ]) "steps" = false :=
  ⟨rfl, rfl⟩

/-- C3 amended: an error returned by one step's tool call is recorded
inside that step's StepRecord and does not abort the remaining steps of
the weather workflow (an error result from `get_weather` still leads to
`ai_analysis` and `store_result` running), but early-abort escalation
exists in TWO places, not one: the batch-job run-identifier extraction
AND the drone workflow's error check on its normalize step, which
returns `{workflow: "drone_ingest", error: ...}` carrying zero
StepRecords. -/
theorem claim_C3 :
    (∀ cfg env wf task city,
      pyGetD wf "task" (JVal.str "") = Except.ok (JVal.str task) →
      containsSub (pyLower task) "weather" = true →
      containsSub (pyLower task) "bedrock" = false →
      containsSub (pyLower task) "s3" = false →
      pyGetD wf "city" (JVal.str "San Francisco") = Except.ok city →
      JVal.hasKey (weatherStep1 cfg env city) "error" = true →
      executeWorkflow cfg env wf = Except.ok (JVal.obj
        [ ("workflow", JVal.str "weather_analysis")
        , ("steps", JVal.arr
            [ stepRec "get_weather" (weatherStep1 cfg env city)
            , stepRec "ai_analysis" (weatherStep2 cfg env city)
            , stepRec "store_result" (weatherStep3 cfg env city) ]) ]))
    ∧ (∀ cfg env wfFields task evFields trFields msg,
      wfFields.lookup "task" = some (JVal.str task) →
      containsSub (pyLower task) "drone" = true →
      containsSub (pyLower task) "bedrock" = false →
      containsSub (pyLower task) "s3" = false →
      containsSub (pyLower task) "weather" = false →
      containsSub (pyLower task) "database" = false →
      containsSub (pyLower task) "kubernetes" = false →
      containsSub (pyLower task) "k8s" = false →
      wfFields.lookup "event" = some (JVal.obj evFields) →
      evFields ≠ [] →
      droneTransform cfg env wfFields evFields = JVal.obj trFields →
      trFields.lookup "error" = some msg →
      executeWorkflow cfg env (JVal.obj wfFields) =
        Except.ok (JVal.obj [("workflow", JVal.str "drone_ingest"), ("error", msg)])
      ∧ JVal.hasKey (JVal.obj [("workflow", JVal.str "drone_ingest"), ("error", msg)])
          "steps" = false) := by
  constructor
  · intro cfg env wf task city htask hw hb hs hcity _herr
    exact executeWorkflow_weather cfg env wf task city htask hw hb hs hcity
  · intro cfg env wfFields task evFields trFields msg htask hd hb hs hw hq hk1 hk2 hev hevne htr hmsg
    exact ⟨executeWorkflow_drone_error cfg env wfFields task evFields trFields msg
            htask hd hb hs hw hq hk1 hk2 hev hevne htr hmsg, rfl⟩

/-- Witness for C3 (amended), weather part: with the collaborators down,
`get_weather` yields an error body, yet all three steps still run. -/
theorem claim_C3_witness :
    JVal.hasKey (weatherStep1 defaultCfg envAllDown (JVal.str "Reno")) "error" = true
    ∧ executeWorkflow defaultCfg envAllDown
        (JVal.obj [("task", JVal.str "weather please"), ("city", JVal.str "Reno")]) =
      Except.ok (JVal.obj
        [ ("workflow", JVal.str "weather_analysis")
        , ("steps", JVal.arr
            [ stepRec "get_weather" (weatherStep1 defaultCfg envAllDown (JVal.str "Reno"))
            , stepRec "ai_analysis" (weatherStep2 defaultCfg envAllDown (JVal.str "Reno"))
            , stepRec "store_result" (weatherStep3 defaultCfg envAllDown (JVal.str "Reno")) ]) ]) :=
  ⟨rfl,
   claim_C3.1 defaultCfg envAllDown
     (JVal.obj [("task", JVal.str "weather please"), ("city", JVal.str "Reno")])
     "weather please" (JVal.str "Reno") rfl rfl rfl rfl rfl rfl⟩

/-- C4: in the batch-job branch (task containing "glue" and "start" and
no earlier-priority keyword), when extracting the run identifier from
the start step's result fails, the whole response is the two-field
object `{workflow: "glue_job_execution", error: <message>}` — the
already-computed `start_job` result is discarded and no `steps` key is
present. -/
theorem claim_C4 (cfg : AgentCoreCfg) (env : AgentEnv) (wf : JVal) (task : String)
    (jobName : JVal) (e : String)
    (htask : pyGetD wf "task" (JVal.str "") = Except.ok (JVal.str task))
    (hg : containsSub (pyLower task) "glue" = true)
    (hst : containsSub (pyLower task) "start" = true)
    (hb : containsSub (pyLower task) "bedrock" = false)
    (hs : containsSub (pyLower task) "s3" = false)
    (hw : containsSub (pyLower task) "weather" = false)
    (hq : containsSub (pyLower task) "database" = false)
    (hk1 : containsSub (pyLower task) "kubernetes" = false)
    (hk2 : containsSub (pyLower task) "k8s" = false)
    (hd : containsSub (pyLower task) "drone" = false)
    (hjob : pyGetD wf "job_name" (JVal.str "my-etl-job") = Except.ok jobName)
    (hext : (glueRunData env (callMcpTool cfg env "aws" "start_glue_job"
        (JVal.obj [("job_name", jobName)])) >>= fun runData =>
        jGetE runData "run_id") = Except.error e) :
    executeWorkflow cfg env wf =
      Except.ok (JVal.obj
        [("workflow", JVal.str "glue_job_execution"), ("error", JVal.str e)])
    ∧ JVal.hasKey (JVal.obj
        [("workflow", JVal.str "glue_job_execution"), ("error", JVal.str e)])
        "steps" = false := by
  constructor
  · rw [executeWorkflow_classify cfg env wf task htask]
    have hcls : classify task = some WGroup.glueJob := by
      unfold classify
      simp [hb, hs, hw, hq, hk1, hk2, hd, hg]
    rw [hcls]
    show runGlue cfg env task wf = _
    unfold runGlue
    simp only [hst, if_true]
    rw [hjob]
    simp only [exbind_ok]
    rw [exbind_tail_err _ _ _ e hext]
    rfl
  · rfl

/-- Witness for C4 at Scenario 3 of the spec: `task = "start glue job"`,
`job_name = "x"`, with the start step answering an error body so that
the `content` subscript raises `KeyError`. -/
theorem claim_C4_witness :
    (glueRunData envAllDown (callMcpTool defaultCfg envAllDown "aws" "start_glue_job"
        (JVal.obj [("job_name", JVal.str "x")])) >>= fun runData =>
        jGetE runData "run_id") = Except.error "KeyError: content"
    ∧ executeWorkflow defaultCfg envAllDown
        (JVal.obj [("task", JVal.str "start glue job"), ("job_name", JVal.str "x")]) =
      Except.ok (JVal.obj
        [("workflow", JVal.str "glue_job_execution"), ("error", JVal.str "KeyError: content")]) :=
  ⟨rfl,
   (claim_C4 defaultCfg envAllDown
     (JVal.obj [("task", JVal.str "start glue job"), ("job_name", JVal.str "x")])
     "start glue job" (JVal.str "x") "KeyError: content"
     rfl rfl rfl rfl rfl rfl rfl rfl rfl rfl rfl rfl).1⟩

/-- C8: the orchestrator's `invoke_bedrock` never lets an exception
escape — its Lean model is a total function into `JVal` — and every
failure of the underlying pipeline (the model invocation itself, or the
`results[0].outputText` extraction) yields exactly the synthetic string
`"Bedrock error: <message>"`; a successful pipeline's value is returned
unchanged, so a conforming backend always hands callers a string. -/
theorem claim_C8 :
    (∀ cfg env p e, bedrockPipeline cfg env p = Except.error e →
      invokeBedrockJ cfg env p = JVal.str ("Bedrock error: " ++ e))
    ∧ (∀ cfg env p e, env.invokeModel cfg.modelId p cfg.maxTokenCount = Except.error e →
      invokeBedrockJ cfg env p = JVal.str ("Bedrock error: " ++ e))
    ∧ (∀ cfg env p v, bedrockPipeline cfg env p = Except.ok v →
      invokeBedrockJ cfg env p = v) := by
  refine ⟨?_, ?_, ?_⟩
  · intro cfg env p e h
    unfold invokeBedrockJ
    rw [h]
  · intro cfg env p e h
    have hp : bedrockPipeline cfg env p = Except.error e := by
      unfold bedrockPipeline
      rw [h, exbind_err]
    unfold invokeBedrockJ
    rw [hp]
  · intro cfg env p v h
    unfold invokeBedrockJ
    rw [h]

/-- Witness for C8: with the reasoning backend down, `invoke_bedrock`
returns the synthetic error string. -/
theorem claim_C8_witness :
    envAllDown.invokeModel defaultCfg.modelId (JVal.str "hi") defaultCfg.maxTokenCount =
      Except.error "no backend"
    ∧ invokeBedrockJ defaultCfg envAllDown (JVal.str "hi") =
      JVal.str ("Bedrock error: " ++ "no backend") :=
  ⟨rfl, claim_C8.2.1 defaultCfg envAllDown (JVal.str "hi") "no backend" rfl⟩

/-- Clamping of the AWS Bedrock tool: any integer token request at or
above the ceiling behaves exactly like the ceiling itself, for every
collaborator environment. -/
theorem awsInvokeBedrockModel_clamp (env : AwsEnv) (prompt mid : JVal) (n : Int)
    (hn : 3072 ≤ n) :
    awsInvokeBedrockModel env prompt (JVal.num n) mid =
    awsInvokeBedrockModel env prompt (JVal.num 3072) mid := by
  unfold awsInvokeBedrockModel
  have h1 : pyMinInt (JVal.num n) 3072 = Except.ok 3072 := by
    show Except.ok (min n 3072) = Except.ok 3072
    rw [min_eq_right hn]
  have h2 : pyMinInt (JVal.num 3072) 3072 = Except.ok ((3072 : Int)) := by
    show Except.ok (min (3072 : Int) 3072) = Except.ok ((3072 : Int))
    rw [min_self]
  rw [h1, h2]

/-- C7: `invoke_bedrock_model` passes `min(max_tokens, 3072)` to the
text-generation backend: the computed count is never above 3072, and a
request above the ceiling is clamped, not rejected — for every
environment, ceiling+1000 and the ceiling produce identical calls. -/
theorem claim_C7 :
    (∀ n : Int, pyMinInt (JVal.num n) 3072 = Except.ok (min n 3072))
    ∧ (∀ n : Int, min n 3072 ≤ 3072)
    ∧ (∀ (env : AwsEnv) (prompt mid : JVal) (n : Int), 3072 ≤ n →
        awsInvokeBedrockModel env prompt (JVal.num n) mid =
        awsInvokeBedrockModel env prompt (JVal.num 3072) mid)
    ∧ (∀ (env : AwsEnv) (prompt mid : JVal),
        awsInvokeBedrockModel env prompt (JVal.num (3072 + 1000)) mid =
        awsInvokeBedrockModel env prompt (JVal.num 3072) mid) :=
  ⟨fun _ => rfl, fun _ => min_le_right _ _, awsInvokeBedrockModel_clamp,
   fun env prompt mid =>
     awsInvokeBedrockModel_clamp env prompt mid (3072 + 1000) (by norm_num)⟩

/-- A probe environment whose Bedrock backend echoes the token count it
was handed, so the clamped value is observable in the result. -/
def awsEnvProbe : AwsEnv :=
  { listBuckets := Except.error "down"
  , invokeModel := fun _ _ mt =>
      Except.ok (JVal.obj [("results", JVal.arr [JVal.obj [("outputText", JVal.str (toString mt))]])])
  , listGlueJobs := Except.error "down"
  , startGlueJob := fun _ => Except.error "down"
  , glueJobStatus := fun _ _ => Except.error "down"
  , getTableCols := Except.error "down"
  , putRecord := fun _ _ _ => Except.error "down" }

/-- Witness for C7: requesting 4072 tokens behaves exactly like
requesting 3072, and the backend observed the count 3072. -/
theorem claim_C7_witness :
    (3072 : Int) ≤ 4072
    ∧ awsInvokeBedrockModel awsEnvProbe (JVal.str "hi") (JVal.num 4072) (JVal.str "m") =
      awsInvokeBedrockModel awsEnvProbe (JVal.str "hi") (JVal.num 3072) (JVal.str "m")
    ∧ awsInvokeBedrockModel awsEnvProbe (JVal.str "hi") (JVal.num 4072) (JVal.str "m") =
      content [textJ (JVal.str "3072")] :=
  ⟨by decide,
   claim_C7.2.2.1 awsEnvProbe (JVal.str "hi") (JVal.str "m") 4072 (by decide),
   rfl⟩

/-- C9: with no AWS session, every `tools/call` request — whatever its
params and whatever the rest of the envelope — is answered with
`{error: "AWS credentials not configured"}` without consulting any
collaborator, while `tools/list` still returns the full six-descriptor
registry for any state. -/
theorem claim_C9 :
    (∀ (s : Option String) (env : AwsEnv) (params : JVal) (rest : List (String × JVal)),
      awsHandle ⟨false, s⟩ env
        (JVal.obj (("method", JVal.str "tools/call") :: ("params", params) :: rest)) =
      Except.ok (jerr "AWS credentials not configured"))
    ∧ (∀ (st : AwsState) (env : AwsEnv) (rest : List (String × JVal)),
      awsHandle st env (JVal.obj (("method", JVal.str "tools/list") :: rest)) =
      Except.ok (JVal.obj [("tools", JVal.arr awsRegistry)]))
    ∧ awsRegistry.length = 6 :=
  ⟨fun _ _ _ _ => rfl, fun _ _ _ => rfl, rfl⟩

/-- C10: `execute_query` branches solely on
`query.strip().upper().startswith("SELECT")`: such queries return the
fetched rows as JSON without committing; every other statement that
executes (and commits) successfully — including `WITH ... SELECT`, which
returns rows — is committed and answered with the rows-affected message;
a raising statement yields `{error}`. -/
theorem claim_C10 :
    (∀ (env : SqlEnv) (q : String) (oc : SqlOutcome),
      env.run q = Except.ok oc → startsSelect q = true →
      executeQuery env (JVal.str q) =
        ⟨content [text (jsonDumpIndent2 (JVal.arr oc.rows))], false⟩)
    ∧ (∀ (env : SqlEnv) (q : String) (oc : SqlOutcome),
      env.run q = Except.ok oc → startsSelect q = false → oc.commitErr = none →
      executeQuery env (JVal.str q) =
        ⟨content [text ("Query executed. Rows affected: " ++ toString oc.rowcount)], true⟩)
    ∧ (∀ (env : SqlEnv) (q : String) (e : String),
      env.run q = Except.error e →
      executeQuery env (JVal.str q) = ⟨jerr e, false⟩)
    ∧ startsSelect "WITH t AS (SELECT 1) SELECT * FROM t" = false
    ∧ startsSelect "  select * from users" = true := by
  refine ⟨?_, ?_, ?_, by decide, by decide⟩
  · intro env q oc h hs
    simp [executeQuery, h, hs]
  · intro env q oc h hs hc
    simp [executeQuery, h, hs, hc]
  · intro env q e h
    simp [executeQuery, h]

/-- A probe sqlite collaborator: SELECT-style statements return one row,
anything else reports two affected rows; nothing raises. -/
def sqlEnvProbe : SqlEnv :=
  { run := fun q =>
      if startsSelect q then Except.ok ⟨[JVal.obj [("id", JVal.num 1)]], -1, none⟩
      else Except.ok ⟨[], 2, none⟩ }

/-- Witness for C10: a `WITH ... SELECT` statement that returns rows is
nevertheless routed through the write path: committed, rows dropped,
rows-affected message returned. -/
theorem claim_C10_witness :
    sqlEnvProbe.run "WITH t AS (SELECT 1) SELECT * FROM t" = Except.ok ⟨[], 2, none⟩
    ∧ startsSelect "WITH t AS (SELECT 1) SELECT * FROM t" = false
    ∧ executeQuery sqlEnvProbe (JVal.str "WITH t AS (SELECT 1) SELECT * FROM t") =
      ⟨content [text ("Query executed. Rows affected: " ++ toString (2 : Int))], true⟩ :=
  ⟨rfl, by decide,
   claim_C10.2.1 sqlEnvProbe "WITH t AS (SELECT 1) SELECT * FROM t" ⟨[], 2, none⟩
     rfl (by decide) rfl⟩

/-- C5: every registered tool body, on every path on which it returns a
result (success and every caught-failure path), returns a one-key dict
that is either `{content: [...]}` or `{error: string}` — never both,
never empty.  Bodies whose model is `Except`-valued can also raise; a
raising path yields no ToolCallResult at all and is outside the claim. -/
theorem claim_C5 :
    (∀ env : AwsEnv, isToolCallResult (awsListS3Buckets env) = true)
    ∧ (∀ (env : AwsEnv) (prompt mt mid : JVal),
        isToolCallResult (awsInvokeBedrockModel env prompt mt mid) = true)
    ∧ (∀ env : AwsEnv, isToolCallResult (awsListGlueJobs env) = true)
    ∧ (∀ (env : AwsEnv) (jn : JVal), isToolCallResult (awsStartGlueJob env jn) = true)
    ∧ (∀ (env : AwsEnv) (jn rid : JVal),
        isToolCallResult (awsGetGlueJobStatus env jn rid) = true)
    ∧ (∀ (st : AwsState) (env : AwsEnv) (args : JVal),
        okWellFormed (processDroneEvent st env args) = true)
    ∧ (∀ (env : K8sEnv) (ns : JVal), isToolCallResult (k8sListPods env ns) = true)
    ∧ (∀ (env : K8sEnv) (dn ns rs : JVal),
        isToolCallResult (k8sScaleDeployment env dn ns rs) = true)
    ∧ (∀ env : K8sEnv, isToolCallResult (k8sGetClusterStatus env) = true)
    ∧ (∀ (env : K8sEnv) (pn ns : JVal),
        isToolCallResult (k8sTroubleshootPod env pn ns) = true)
    ∧ (∀ (env : CustomEnv) (store : CStore) (k v : JVal),
        okWellFormedP (storeData env store k v) = true)
    ∧ (∀ (store : CStore) (k : JVal), okWellFormed (getData store k) = true)
    ∧ (∀ (env : CustomEnv) (c : JVal), isToolCallResult (getWeather env c) = true)
    ∧ (∀ (env : SqlEnv) (q : JVal), isToolCallResult (executeQuery env q).resp = true) := by
  refine ⟨?_, ?_, ?_, ?_, ?_, ?_, ?_, ?_, ?_, ?_, ?_, ?_, ?_, ?_⟩
  · intro env
    unfold awsListS3Buckets
    cases env.listBuckets with
    | ok names => rfl
    | error e => rfl
  · intro env prompt mt mid
    unfold awsInvokeBedrockModel
    split
    · rfl
    · rfl
  · intro env
    unfold awsListGlueJobs
    cases env.listGlueJobs with
    | ok jobs => rfl
    | error e => rfl
  · intro env jn
    unfold awsStartGlueJob
    cases env.startGlueJob jn with
    | ok rid => rfl
    | error e => rfl
  · intro env jn rid
    unfold awsGetGlueJobStatus
    cases env.glueJobStatus jn rid with
    | ok i => rfl
    | error e => rfl
  · intro st env args
    unfold processDroneEvent
    split
    · rfl
    · split
      · rfl
      · apply okWellFormed_bind
        intro payload
        split
        · apply okWellFormed_bind
          intro a0
          split
          · rfl
          · apply okWellFormed_bind
            intro normalized
            unfold dronePublish
            split
            · rfl
            · rfl
        · rfl
  · intro env ns
    unfold k8sListPods
    cases env.listPods ns with
    | ok pods => rfl
    | error e => rfl
  · intro env dn ns rs
    unfold k8sScaleDeployment
    cases env.scaleDeployment dn ns rs with
    | ok u => rfl
    | error e => rfl
  · intro env
    unfold k8sGetClusterStatus
    cases env.listNodes with
    | ok nodes => rfl
    | error e => rfl
  · intro env pn ns
    unfold k8sTroubleshootPod
    cases env.readPod pn ns with
    | ok pod => rfl
    | error e => rfl
  · intro env store k v
    unfold storeData cstoreSetE
    split
    · rfl
    · rfl
  · intro store k
    unfold getData
    split
    · cases store.lookup k with
      | some d => rfl
      | none => rfl
    · rfl
  · intro env c
    unfold getWeather
    split
    · rfl
    · split
      · split
        · rfl
        · rfl
      · rfl
  · intro env q
    unfold executeQuery
    split
    · split
      · rfl
      · split
        · rfl
        · split
          · rfl
          · rfl
    · rfl

/-! ## Claim C2: exceptions at the dispatch boundary -/

theorem lookup_jGetE_none {fs : List (String × JVal)} {k : String}
    (h : fs.lookup k = none) :
    jGetE (JVal.obj fs) k = Except.error ("KeyError: " ++ k) := by
  simp [jGetE, h]

/-- A well-formed `tools/call` envelope for tool `tool` with arguments
`args`. -/
def mkCall (tool : String) (args : JVal) : JVal := JVal.obj
  [ ("method", JVal.str "tools/call")
  , ("params", JVal.obj [("name", JVal.str tool), ("arguments", args)]) ]

/-- An environment for the custom server used at concrete inputs. -/
def customEnvCX : CustomEnv :=
  { now := "2026-10-12T00:00:00"
  , weatherGet := fun _ => Except.error "network down" }

/-- The counterexample request: `store_data` without its required
`"key"` argument. -/
def reqStoreNoKey : JVal := mkCall "store_data" (JVal.obj [("value", JVal.str "v")])

/-- C2 counterexample: a parseable `tools/call` of the registered tool
`store_data` lacking the required `"key"` argument raises `KeyError` in
`handle_request` itself — there is no catch at the dispatch boundary —
and `do_POST` turns it into a transport-level HTTP 500 response, not a
success-status `{error}` envelope. -/
theorem claim_C2_counterexample :
    customHandle customEnvCX [] reqStoreNoKey = Except.error "KeyError: key"
    ∧ (customDoPost customEnvCX [] (Except.ok reqStoreNoKey)).1.status = 500 :=
  ⟨rfl, rfl⟩

/-- C2 amended: there is no exception catch at the `tools/call` dispatch
boundary.  Every exception escaping `handle_request` is answered as a
transport-level HTTP 500 response whose body is `{error: message}`
(conjuncts 2 and 3, fully general), exactly like an unparseable request
body (conjunct 8); in particular the `KeyError` of `store_data` without
`"key"` and of `invoke_bedrock_model` without `"prompt"`, and the
`TypeError` of a `store_data` call with an unhashable (list/dict) key,
do escape (conjuncts 4-6).  Only an exception a tool body catches itself
comes back as `{error: message}` in a success-status envelope —
`get_weather` catches everything it can raise (conjunct 1) — and a
`store_data` call with both required arguments and a hashable key is
answered with status 200 (conjunct 7). -/
theorem claim_C2 :
    (∀ (env : CustomEnv) (c : JVal), isToolCallResult (getWeather env c) = true)
    ∧ (∀ (env : CustomEnv) (store : CStore) (req : JVal) (e : String),
        customHandle env store req = Except.error e →
        customDoPost env store (Except.ok req) = (⟨500, jerr e⟩, store))
    ∧ (∀ (handler : JVal → Except String JVal) (req : JVal) (e : String),
        handler req = Except.error e →
        mcpDoPost handler (Except.ok req) = ⟨500, jerr e⟩)
    ∧ (∀ (env : CustomEnv) (store : CStore) (argsFields : List (String × JVal)),
        argsFields.lookup "key" = none →
        customHandle env store (mkCall "store_data" (JVal.obj argsFields)) =
          Except.error ("KeyError: " ++ "key"))
    ∧ (∀ (env : CustomEnv) (store : CStore) (argsFields : List (String × JVal)) (k v : JVal),
        argsFields.lookup "key" = some k → argsFields.lookup "value" = some v →
        pyHashable k = false →
        customHandle env store (mkCall "store_data" (JVal.obj argsFields)) =
          Except.error "TypeError: unhashable type")
    ∧ (∀ (s : Option String) (env : AwsEnv) (argsFields : List (String × JVal)),
        argsFields.lookup "prompt" = none →
        awsHandle ⟨true, s⟩ env (mkCall "invoke_bedrock_model" (JVal.obj argsFields)) =
          Except.error ("KeyError: " ++ "prompt"))
    ∧ (∀ (env : CustomEnv) (store : CStore) (argsFields : List (String × JVal)) (k v : JVal),
        argsFields.lookup "key" = some k → argsFields.lookup "value" = some v →
        pyHashable k = true →
        customDoPost env store (Except.ok (mkCall "store_data" (JVal.obj argsFields))) =
          ( ⟨200, content [text ("Stored " ++ sq ++ pyStr k ++ sq ++ " = " ++ sq ++ pyStr v ++ sq)]⟩
          , cstoreSet store k (JVal.obj [("value", v), ("timestamp", JVal.str env.now)]) ))
    ∧ (∀ (env : CustomEnv) (store : CStore) (e : String),
        customDoPost env store (Except.error e) = (⟨500, jerr e⟩, store)) := by
  refine ⟨?_, ?_, ?_, ?_, ?_, ?_, ?_, fun _ _ _ => rfl⟩
  · intro env c
    unfold getWeather
    split
    · rfl
    · split
      · split
        · rfl
        · rfl
      · rfl
  · intro env store req e h
    simp only [customDoPost]
    rw [h]
  · intro handler req e h
    simp only [mcpDoPost]
    rw [h]
  · intro env store argsFields hk
    show (jGetE (JVal.obj argsFields) "key" >>= fun kk =>
          jGetE (JVal.obj argsFields) "value" >>= fun vv =>
          storeData env store kk vv) = Except.error ("KeyError: " ++ "key")
    rw [lookup_jGetE_none hk, exbind_err]
  · intro env store argsFields k v hk hv hunh
    show (jGetE (JVal.obj argsFields) "key" >>= fun kk =>
          jGetE (JVal.obj argsFields) "value" >>= fun vv =>
          storeData env store kk vv) = Except.error "TypeError: unhashable type"
    rw [lookup_jGetE hk, exbind_ok, lookup_jGetE hv, exbind_ok]
    unfold storeData cstoreSetE
    rw [if_neg (by rw [hunh]; exact Bool.false_ne_true), exbind_err]
  · intro s env argsFields hp
    show (jGetE (JVal.obj argsFields) "prompt" >>= fun prompt =>
          pyGetD (JVal.obj argsFields) "max_tokens" (JVal.num 100) >>= fun mt =>
          pyGetD (JVal.obj argsFields) "model_id" JVal.null >>= fun mid0 =>
          pure (awsInvokeBedrockModel env prompt mt
            (if pyFalsy mid0 then JVal.str defaultModelId else mid0))) =
        Except.error ("KeyError: " ++ "prompt")
    rw [lookup_jGetE_none hp, exbind_err]
  · intro env store argsFields k v hk hv hhash
    have hsd : storeData env store k v = Except.ok
        ( content [text ("Stored " ++ sq ++ pyStr k ++ sq ++ " = " ++ sq ++ pyStr v ++ sq)]
        , cstoreSet store k (JVal.obj [("value", v), ("timestamp", JVal.str env.now)]) ) := by
      unfold storeData cstoreSetE
      rw [if_pos hhash]
      rfl
    have hh : customHandle env store (mkCall "store_data" (JVal.obj argsFields)) =
        Except.ok
          ( content [text ("Stored " ++ sq ++ pyStr k ++ sq ++ " = " ++ sq ++ pyStr v ++ sq)]
          , cstoreSet store k (JVal.obj [("value", v), ("timestamp", JVal.str env.now)]) ) := by
      show (jGetE (JVal.obj argsFields) "key" >>= fun kk =>
            jGetE (JVal.obj argsFields) "value" >>= fun vv =>
            storeData env store kk vv) = _
      rw [lookup_jGetE hk, exbind_ok, lookup_jGetE hv, exbind_ok, hsd]
    simp only [customDoPost]
    rw [hh]

/-- Witness for C2 (amended): a parseable `store_data` call with the
unhashable key `[]` raises `TypeError` out of `handle_request`, and
`do_POST` answers HTTP 500 with the `{error: message}` body. -/
theorem claim_C2_witness :
    customHandle customEnvCX []
      (mkCall "store_data" (JVal.obj [("key", JVal.arr []), ("value", JVal.str "v")])) =
      Except.error "TypeError: unhashable type"
    ∧ customDoPost customEnvCX []
        (Except.ok (mkCall "store_data"
          (JVal.obj [("key", JVal.arr []), ("value", JVal.str "v")]))) =
      (⟨500, jerr "TypeError: unhashable type"⟩, []) := by
  have h5 := claim_C2.2.2.2.2.1 customEnvCX ([] : CStore)
      [("key", JVal.arr []), ("value", JVal.str "v")] (JVal.arr []) (JVal.str "v")
      rfl rfl rfl
  exact ⟨h5, claim_C2.2.1 customEnvCX [] _ _ h5⟩

end Nexus
